import Mathlib

/-!
# BrewPi temperature controller (`TempControl.cpp`)

A shallow embedding of the control state machine `TempControl::updateState`, the
overshoot estimator `TempControl::updateEstimatedPeak`, the output driver
`TempControl::updateOutputs` and the setters `setMode`, `setBeerTemp` and
`setFridgeTemp`, followed by theorems about them.

The target is an AVR: `int` and `unsigned int` are 16 bits wide (`INT_MIN` is the
sentinel of the 16-bit `fixed7_9`).  `temperatureFormats.h` is not among the
sources; the widths of `fixed7_9` (signed, 7 + 9 bits) and `fixed23_9` (signed,
23 + 9 bits) are those of the specification's data model.  Machine integers are
embedded as `Int`/`Nat` and every arithmetic result is reduced to its width
explicitly.
-/

namespace BrewPi

/-! ## Machine arithmetic -/

/-- Value of `INT_MIN` for the 16-bit `int` of the target; the "undefined" setting. -/
def INT_MIN : Int := -32768

/-- Reduction of an integer to the signed 16-bit range (two's complement). -/
def wrapInt16 (x : Int) : Int := (x + 32768) % 65536 - 32768

/-- Reduction of an integer to the signed 32-bit range (two's complement). -/
def wrapInt32 (x : Int) : Int := (x + 2147483648) % 4294967296 - 2147483648

/-- Reduction of a natural number to the unsigned 16-bit range. -/
def wrapUInt16 (x : Nat) : Nat := x % 65536

/-- The values a `fixed7_9` (signed 16-bit) variable can hold. -/
def IsInt16 (x : Int) : Prop := -32768 ≤ x ∧ x ≤ 32767

/-- The values a `uint16_t` variable can hold. -/
def IsUInt16 (n : Nat) : Prop := n < 65536

instance (x : Int) : Decidable (IsInt16 x) := by unfold IsInt16; infer_instance

instance (n : Nat) : Decidable (IsUInt16 n) := by unfold IsUInt16; infer_instance

/-! ## Data model -/

/-- Modelled from the spec: the control state constants of `TempControl.h`, which
is not among the sources; the spec lists exactly these six values. -/
inductive State where
  | STARTUP
  | IDLE
  | STATE_OFF
  | COOLING
  | HEATING
  | DOOR_OPEN
  deriving DecidableEq, Repr

/-- Modelled from the spec: the mode constants of `TempControl.h`, which is not
among the sources; the spec lists exactly these five values. -/
inductive Mode where
  | MODE_OFF
  | MODE_FRIDGE_CONSTANT
  | MODE_BEER_CONSTANT
  | MODE_BEER_PROFILE
  | MODE_TEST
  deriving DecidableEq, Repr

/-- The fields of `ControlConstants cc` that the control logic reads. -/
structure ControlConstants where
  maxHeatTimeForEstimate : Nat
  maxCoolTimeForEstimate : Nat
  tempSettingMax : Int
  tempSettingMin : Int
  idleRangeHigh : Int
  idleRangeLow : Int
  deriving DecidableEq, Repr

/-- The fields of `ControlSettings cs` that the control logic reads or writes. -/
structure ControlSettings where
  mode : Mode
  beerSetting : Int
  fridgeSetting : Int
  heatEstimator : Int
  coolEstimator : Int
  deriving DecidableEq, Repr

/-- The fields of `ControlVariables cv` that the control logic reads or writes. -/
structure ControlVariables where
  estimatedPeak : Int
  negPeakEstimate : Int
  posPeakEstimate : Int
  deriving DecidableEq, Repr

/-- The `MIN_*` time thresholds (seconds).  Their definitions are not among the
sources, so they are parameters of the model. -/
structure TimeLimits where
  MIN_COOL_OFF_TIME : Nat
  MIN_HEAT_OFF_TIME : Nat
  MIN_COOL_ON_TIME : Nat
  MIN_HEAT_ON_TIME : Nat
  MIN_COOL_OFF_TIME_FRIDGE_CONSTANT : Nat
  MIN_SWITCH_TIME : Nat
  deriving DecidableEq, Repr

/-- What the collaborators answer during one call: `door->sense()`,
`isConnected()` and `readFastFiltered()` of the two sensors, the values of
`timeSinceIdle()`, `timeSinceCooling()`, `timeSinceHeating()` as held in the
`uint16_t` locals, and the clock value `ticks.seconds()`.  The controller runs to
completion without the collaborators changing, so each question has one answer
per call.  The helpers `timeSince*` and the clock are not among the sources; their
results are inputs of the model, so every theorem holds however they are computed. -/
structure Inputs where
  doorOpen : Bool
  fridgeConnected : Bool
  beerConnected : Bool
  fridgeFast : Int
  beerFast : Int
  sinceIdle : Nat
  sinceCooling : Nat
  sinceHeating : Nat
  secs : Nat
  deriving DecidableEq, Repr

/-- The static members of `TempControl`, together with the observable state of its
collaborators: the activation of the cooler, heater and light actuators (three
distinct devices), the annotations sent to `piLink`, oldest first, the number of
times the settings block was written to storage (`eepromAccess.writeBlock` in
`storeSettings`) and the number of calls of `reset()`. -/
structure TempControl where
  cc : ControlConstants
  cs : ControlSettings
  cv : ControlVariables
  state : State
  doPosPeakDetect : Bool
  doNegPeakDetect : Bool
  storedBeerSetting : Int
  lastIdleTime : Nat
  lastHeatTime : Nat
  lastCoolTime : Nat
  coolerActive : Bool
  heaterActive : Bool
  lightActive : Bool
  annotations : List String
  settingsWrites : Nat
  resetCalls : Nat
  deriving DecidableEq, Repr

/-! ## The controller -/

/-- `TempControl::updateEstimatedPeak(time, estimator, sinceIdle)`.  The product is
formed in `fixed23_9` (32 bits), the quotient truncates toward zero and is stored
in a `fixed7_9`, and the sum with the fridge reading is again a `fixed7_9`. -/
def updateEstimatedPeak (inp : Inputs) (time : Nat) (estimator : Int) (sinceIdle : Nat)
    (tc : TempControl) : TempControl :=
  let activeTime : Nat := min time sinceIdle
  let estimatedOvershoot : Int :=
    wrapInt16 (Int.tdiv (wrapInt32 (estimator * (activeTime : Int))) 3600)
  { tc with cv := { tc.cv with estimatedPeak := wrapInt16 (inp.fridgeFast + estimatedOvershoot) } }

/-- The `case STARTUP: case IDLE: case STATE_OFF:` block of the `switch` in
`updateState`. -/
def idleCase (lim : TimeLimits) (inp : Inputs) (tc : TempControl) : TempControl :=
  let tc1 := { tc with lastIdleTime := wrapUInt16 inp.secs }
  if tc1.doNegPeakDetect = true || tc1.doPosPeakDetect = true then
    tc1
  else if inp.fridgeFast > wrapInt16 (tc1.cs.fridgeSetting + tc1.cc.idleRangeHigh) then
    if tc1.cs.mode = Mode.MODE_FRIDGE_CONSTANT then
      if (inp.sinceCooling > lim.MIN_COOL_OFF_TIME_FRIDGE_CONSTANT
            && inp.sinceHeating > lim.MIN_SWITCH_TIME) || tc1.state = State.STARTUP then
        { tc1 with state := State.COOLING }
      else tc1
    else
      if inp.beerFast < tc1.cs.beerSetting then
        tc1
      else if (inp.sinceCooling > lim.MIN_COOL_OFF_TIME
            && inp.sinceHeating > lim.MIN_SWITCH_TIME) || tc1.state = State.STARTUP then
        { tc1 with state := State.COOLING }
      else tc1
  else if inp.fridgeFast < wrapInt16 (tc1.cs.fridgeSetting + tc1.cc.idleRangeLow) then
    if inp.beerFast > tc1.cs.beerSetting then
      tc1
    else if (inp.sinceCooling > lim.MIN_SWITCH_TIME
          && inp.sinceHeating > lim.MIN_HEAT_OFF_TIME) || tc1.state = State.STARTUP then
      { tc1 with state := State.HEATING }
    else tc1
  else tc1

/-- The `case COOLING:` block of the `switch` in `updateState`. -/
def coolingCase (lim : TimeLimits) (inp : Inputs) (tc : TempControl) : TempControl :=
  let tc1 := { tc with doNegPeakDetect := true, lastCoolTime := wrapUInt16 inp.secs }
  let tc2 := updateEstimatedPeak inp tc1.cc.maxCoolTimeForEstimate tc1.cs.coolEstimator
    inp.sinceIdle tc1
  if tc2.cv.estimatedPeak ≤ tc2.cs.fridgeSetting then
    if inp.sinceIdle > lim.MIN_COOL_ON_TIME then
      { tc2 with cv := { tc2.cv with negPeakEstimate := tc2.cv.estimatedPeak },
                 state := State.IDLE }
    else tc2
  else tc2

/-- The `case HEATING:` block of the `switch` in `updateState`. -/
def heatingCase (lim : TimeLimits) (inp : Inputs) (tc : TempControl) : TempControl :=
  let tc1 := { tc with doPosPeakDetect := true, lastHeatTime := wrapUInt16 inp.secs }
  let tc2 := updateEstimatedPeak inp tc1.cc.maxHeatTimeForEstimate tc1.cs.heatEstimator
    inp.sinceIdle tc1
  if tc2.cv.estimatedPeak ≥ tc2.cs.fridgeSetting then
    if inp.sinceIdle > lim.MIN_HEAT_ON_TIME then
      { tc2 with cv := { tc2.cv with posPeakEstimate := tc2.cv.estimatedPeak },
                 state := State.IDLE }
    else tc2
  else tc2

/-- The `case DOOR_OPEN:` block of the `switch` in `updateState`. -/
def doorOpenCase (inp : Inputs) (tc : TempControl) : TempControl :=
  if !inp.doorOpen then
    { tc with annotations := tc.annotations ++ ["Fridge door closed"],
              state := State.IDLE }
  else tc

/-- `TempControl::updateState()`: one tick of the control state machine.  The four
early returns come first; the `switch` on the state follows, one definition per
`case` block. -/
def updateState (lim : TimeLimits) (inp : Inputs) (tc : TempControl) : TempControl :=
  if inp.doorOpen then
    let tc1 :=
      if tc.state ≠ State.DOOR_OPEN then
        { tc with annotations := tc.annotations ++ ["Fridge door opened"] }
      else tc
    { tc1 with state := State.DOOR_OPEN }
  else if tc.cs.mode = Mode.MODE_OFF then
    { tc with state := State.STATE_OFF }
  else if tc.cs.fridgeSetting = INT_MIN then
    { tc with state := State.IDLE }
  else if !inp.fridgeConnected ||
      (!inp.beerConnected &&
        (tc.cs.mode = Mode.MODE_BEER_CONSTANT || tc.cs.mode = Mode.MODE_BEER_PROFILE)) then
    { tc with state := State.IDLE }
  else
    match tc.state with
    | State.STARTUP => idleCase lim inp tc
    | State.IDLE => idleCase lim inp tc
    | State.STATE_OFF => idleCase lim inp tc
    | State.COOLING => coolingCase lim inp tc
    | State.HEATING => heatingCase lim inp tc
    | State.DOOR_OPEN => doorOpenCase inp tc

/-- The tick reaches the `switch` of `updateState`: none of the four early
returns is taken (door closed, mode not off, fridge setting defined, the fridge
sensor connected, and the beer sensor connected when the mode is beer-driven). -/
def ReachesSwitch (inp : Inputs) (tc : TempControl) : Prop :=
  inp.doorOpen = false ∧ tc.cs.mode ≠ Mode.MODE_OFF ∧ tc.cs.fridgeSetting ≠ INT_MIN ∧
  inp.fridgeConnected = true ∧
  (inp.beerConnected = true ∨
    (tc.cs.mode ≠ Mode.MODE_BEER_CONSTANT ∧ tc.cs.mode ≠ Mode.MODE_BEER_PROFILE))

instance (inp : Inputs) (tc : TempControl) : Decidable (ReachesSwitch inp tc) := by
  unfold ReachesSwitch; infer_instance

/-- The overshoot-adjusted peak over the integers, with no reduction to a machine
width: `reading + (estimator * min(time, sinceIdle)) / 3600`, the quotient
truncated toward zero. -/
def exactPeak (reading : Int) (time : Nat) (estimator : Int) (sinceIdle : Nat) : Int :=
  reading + Int.tdiv (estimator * ((min time sinceIdle : Nat) : Int)) 3600

/-- `TempControl::updateOutputs()`.  `lightAsHeater` is the build option
`LIGHT_AS_HEATER`. -/
def updateOutputs (lightAsHeater : Bool) (tc : TempControl) : TempControl :=
  if tc.cs.mode = Mode.MODE_TEST then
    tc
  else
    let tc1 := { tc with coolerActive := (tc.state == State.COOLING) }
    if lightAsHeater then
      { tc1 with heaterActive := (tc1.state == State.DOOR_OPEN || tc1.state == State.HEATING) }
    else
      let tc2 := { tc1 with heaterActive := (tc1.state == State.HEATING) }
      { tc2 with lightActive := (tc2.state == State.DOOR_OPEN) }

/-! ## The setters -/

/-- The value of `abs(x)` for a 16-bit `int` argument: `x > 0 ? x : -x`, the
negation formed in 16 bits (so `abs(-32768)` is `-32768`). -/
def abs16 (x : Int) : Int := wrapInt16 (if x > 0 then x else -x)

/-- `TempControl::storeSettings(offset)`: the settings block is written to storage
and the beer setting just stored is remembered in `storedBeerSetting`.  The offset
and the returned size play no part in the control logic. -/
def storeSettings (tc : TempControl) : TempControl :=
  { tc with settingsWrites := tc.settingsWrites + 1, storedBeerSetting := tc.cs.beerSetting }

/-- Modelled from the spec: `eepromManager.storeTempSettings()`, whose body is not
among the sources.  The specification calls it persisting the settings, after which
the value stored counts as the last persisted one: it stores the settings block
through `storeSettings`. -/
def storeTempSettings (tc : TempControl) : TempControl := storeSettings tc

/-- Modelled from the spec: `TempControl::reset()`, whose body is not among the
sources.  Of its effect the specification fixes only that it clears both
peak-detect flags; the model also counts its calls. -/
def reset (tc : TempControl) : TempControl :=
  { tc with doPosPeakDetect := false, doNegPeakDetect := false,
            resetCalls := tc.resetCalls + 1 }

/-- Modelled from the spec: the PID routine behind `TempControl::updatePID()`,
whose body is not among the sources.  The specification fixes only that it
recomputes the PID-derived settings, so the routine is a parameter of the model:
any two functions giving the beer and fridge settings it leaves behind. -/
structure PidRoutine where
  beerSetting : Inputs → TempControl → Int
  fridgeSetting : Inputs → TempControl → Int

/-- Modelled from the spec: `TempControl::updatePID()` rewrites the two settings as
the PID routine says and touches nothing else of the controller. -/
def updatePID (pid : PidRoutine) (inp : Inputs) (tc : TempControl) : TempControl :=
  { tc with cs := { tc.cs with beerSetting := pid.beerSetting inp tc,
                               fridgeSetting := pid.fridgeSetting inp tc } }

/-- `TempControl::setMode(newMode)`. -/
def setMode (newMode : Mode) (tc : TempControl) : TempControl :=
  if newMode ≠ tc.cs.mode then
    let tc1 := { tc with state := State.IDLE }
    let tc2 := { tc1 with cs := { tc1.cs with mode := newMode } }
    let tc3 :=
      if newMode = Mode.MODE_BEER_PROFILE || newMode = Mode.MODE_OFF then
        { tc2 with cs := { tc2.cs with beerSetting := INT_MIN, fridgeSetting := INT_MIN } }
      else tc2
    storeTempSettings tc3
  else tc

/-- `TempControl::setBeerTemp(newTemp)`.  The two differences are formed in the
16-bit `int` of the target. -/
def setBeerTemp (pid : PidRoutine) (lim : TimeLimits) (inp : Inputs) (newTemp : Int)
    (tc : TempControl) : TempControl :=
  let oldBeerSetting := tc.cs.beerSetting
  let tc1 := { tc with cs := { tc.cs with beerSetting := newTemp } }
  let tc2 := if abs16 (wrapInt16 (oldBeerSetting - newTemp)) > 128 then reset tc1 else tc1
  let tc3 := updatePID pid inp tc2
  let tc4 := updateState lim inp tc3
  if abs16 (wrapInt16 (tc4.storedBeerSetting - newTemp)) > 128 then
    storeTempSettings tc4
  else tc4

/-- `TempControl::setFridgeTemp(newTemp)`. -/
def setFridgeTemp (pid : PidRoutine) (lim : TimeLimits) (inp : Inputs) (newTemp : Int)
    (tc : TempControl) : TempControl :=
  let tc1 := { tc with cs := { tc.cs with fridgeSetting := newTemp } }
  let tc2 := reset tc1
  let tc3 := updatePID pid inp tc2
  updateState lim inp tc3

/-- The controller as `setFridgeTemp(newTemp)` hands it to `updateState()`: the new
fridge setting stored, then `reset()`, then `updatePID()`. -/
def fridgeTempPrepared (pid : PidRoutine) (inp : Inputs) (newTemp : Int)
    (tc : TempControl) : TempControl :=
  updatePID pid inp (reset { tc with cs := { tc.cs with fridgeSetting := newTemp } })

/-- A run of ticks, one input snapshot per tick, first tick first. -/
def ticks (lim : TimeLimits) : List Inputs → TempControl → TempControl
  | [], tc => tc
  | inp :: rest, tc => ticks lim rest (updateState lim inp tc)

/-- A run of `setBeerTemp` calls, each with its input snapshot and its argument,
first call first. -/
def setBeerTemps (pid : PidRoutine) (lim : TimeLimits) :
    List (Inputs × Int) → TempControl → TempControl
  | [], tc => tc
  | c :: rest, tc => setBeerTemps pid lim rest (setBeerTemp pid lim c.1 c.2 tc)

/-- A setting is acceptable: within `[tempSettingMin, tempSettingMax]` or the
undefined sentinel. -/
def InRangeOrUndefined (cc : ControlConstants) (x : Int) : Prop :=
  (cc.tempSettingMin ≤ x ∧ x ≤ cc.tempSettingMax) ∨ x = INT_MIN

instance (cc : ControlConstants) (x : Int) : Decidable (InRangeOrUndefined cc x) := by
  unfold InRangeOrUndefined; infer_instance

/-- The setpoint range invariant of the specification: both settings are
acceptable. -/
def SetpointInvariant (tc : TempControl) : Prop :=
  InRangeOrUndefined tc.cc tc.cs.beerSetting ∧ InRangeOrUndefined tc.cc tc.cs.fridgeSetting

instance (tc : TempControl) : Decidable (SetpointInvariant tc) := by
  unfold SetpointInvariant; infer_instance

/-- The pending-peak lockout: a peak-detect flag is set and the controller is
neither cooling nor heating. -/
def PendingPeakLockout (tc : TempControl) : Prop :=
  (tc.doPosPeakDetect = true ∨ tc.doNegPeakDetect = true) ∧
  tc.state ≠ State.COOLING ∧ tc.state ≠ State.HEATING

instance (tc : TempControl) : Decidable (PendingPeakLockout tc) := by
  unfold PendingPeakLockout; infer_instance

/-- The exit test of `case COOLING`: the estimate computed with the cooling window
and coefficient is at most the fridge setting and `sinceIdle` exceeds
`MIN_COOL_ON_TIME`. -/
def CoolingExitDue (lim : TimeLimits) (inp : Inputs) (tc : TempControl) : Prop :=
  (updateEstimatedPeak inp tc.cc.maxCoolTimeForEstimate tc.cs.coolEstimator inp.sinceIdle
      tc).cv.estimatedPeak ≤ tc.cs.fridgeSetting ∧
  inp.sinceIdle > lim.MIN_COOL_ON_TIME

instance (lim : TimeLimits) (inp : Inputs) (tc : TempControl) :
    Decidable (CoolingExitDue lim inp tc) := by
  unfold CoolingExitDue; infer_instance

/-- The exit test of `case HEATING`: the estimate computed with the heating window
and coefficient is at least the fridge setting and `sinceIdle` exceeds
`MIN_HEAT_ON_TIME`. -/
def HeatingExitDue (lim : TimeLimits) (inp : Inputs) (tc : TempControl) : Prop :=
  (updateEstimatedPeak inp tc.cc.maxHeatTimeForEstimate tc.cs.heatEstimator inp.sinceIdle
      tc).cv.estimatedPeak ≥ tc.cs.fridgeSetting ∧
  inp.sinceIdle > lim.MIN_HEAT_ON_TIME

instance (lim : TimeLimits) (inp : Inputs) (tc : TempControl) :
    Decidable (HeatingExitDue lim inp tc) := by
  unfold HeatingExitDue; infer_instance

/-- The situations in which a second tick with the same input snapshot moves the
control state on: the first tick reaches the state logic and either leaves
`DOOR_OPEN` for `IDLE` while the idle block, run from `IDLE`, starts to cool or
heat; or enters `COOLING` while the cooling exit test already holds; or enters
`HEATING` while the heating exit test already holds. -/
def MovesOn (lim : TimeLimits) (inp : Inputs) (tc : TempControl) : Prop :=
  ReachesSwitch inp tc ∧
  ((tc.state = State.DOOR_OPEN ∧
      (idleCase lim inp { tc with state := State.IDLE }).state ≠ State.IDLE) ∨
    (tc.state ≠ State.COOLING ∧ (updateState lim inp tc).state = State.COOLING ∧
      CoolingExitDue lim inp tc) ∨
    (tc.state ≠ State.HEATING ∧ (updateState lim inp tc).state = State.HEATING ∧
      HeatingExitDue lim inp tc))

instance (lim : TimeLimits) (inp : Inputs) (tc : TempControl) :
    Decidable (MovesOn lim inp tc) := by
  unfold MovesOn; infer_instance

/-! ## Concrete configurations used in the examples -/

/-- The constants written by `loadDefaultConstants`. -/
def defaultConstants : ControlConstants :=
  { maxHeatTimeForEstimate := 600, maxCoolTimeForEstimate := 1200,
    tempSettingMax := 30 * 512, tempSettingMin := 1 * 512,
    idleRangeHigh := 512, idleRangeLow := -512 }

/-- Time thresholds of a typical build: all below 9999 seconds. -/
def sampleLimits : TimeLimits :=
  { MIN_COOL_OFF_TIME := 300, MIN_HEAT_OFF_TIME := 300, MIN_COOL_ON_TIME := 300,
    MIN_HEAT_ON_TIME := 300, MIN_COOL_OFF_TIME_FRIDGE_CONSTANT := 900, MIN_SWITCH_TIME := 600 }

/-- An idle controller in fridge-constant mode with a fridge setting of 10 °C. -/
def sampleControl : TempControl :=
  { cc := defaultConstants,
    cs := { mode := Mode.MODE_FRIDGE_CONSTANT, beerSetting := 10240, fridgeSetting := 5120,
            heatEstimator := 102, coolEstimator := 2560 },
    cv := { estimatedPeak := 0, negPeakEstimate := 0, posPeakEstimate := 0 },
    state := State.IDLE, doPosPeakDetect := false, doNegPeakDetect := false,
    storedBeerSetting := 10240, lastIdleTime := 0, lastHeatTime := 0, lastCoolTime := 0,
    coolerActive := false, heaterActive := false, lightActive := false, annotations := [],
    settingsWrites := 0, resetCalls := 0 }

/-- A snapshot with the door closed, both sensors connected, the fridge at 11.5 °C,
the beer at 20 °C and all timers at 9999 seconds. -/
def sampleInputs : Inputs :=
  { doorOpen := false, fridgeConnected := true, beerConnected := true,
    fridgeFast := 5888, beerFast := 10240,
    sinceIdle := 9999, sinceCooling := 9999, sinceHeating := 9999, secs := 20000 }


/-- A controller that is cooling, otherwise as `sampleControl`. -/
def coolingControl : TempControl := { sampleControl with state := State.COOLING }

/-- A controller in beer-constant mode with a beer setting of 20 °C, in `STARTUP`. -/
def beerControl : TempControl :=
  { sampleControl with
    cs := { sampleControl.cs with mode := Mode.MODE_BEER_CONSTANT }, state := State.STARTUP }

/-- An idle controller whose fridge setting is 62.5 °C with an idle band of about
±2 °C: the upper limit of the band, 33000, is not a 16-bit value. -/
def hotControl : TempControl :=
  { sampleControl with
    cc := { defaultConstants with idleRangeHigh := 1000, idleRangeLow := -1000 },
    cs := { sampleControl.cs with fridgeSetting := 32000 } }

/-- A cooling controller whose estimator predicts 10 °C per hour over a window of
ten hours. -/
def longWindowControl : TempControl :=
  { coolingControl with
    cc := { defaultConstants with maxCoolTimeForEstimate := 36000 },
    cs := { sampleControl.cs with coolEstimator := 5120 } }

/-- A PID routine that leaves both settings as it finds them. -/
def keepSettings : PidRoutine :=
  { beerSetting := fun _ tc => tc.cs.beerSetting,
    fridgeSetting := fun _ tc => tc.cs.fridgeSetting }

/-- A controller in `DOOR_OPEN`, otherwise as `sampleControl`. -/
def doorOpenControl : TempControl := { sampleControl with state := State.DOOR_OPEN }

/-- A snapshot with the fridge at 8 °C, below the idle band of `sampleControl`,
otherwise as `sampleInputs` (beer at 20 °C). -/
def coldInputs : Inputs := { sampleInputs with fridgeFast := 4096 }

/-- An idle controller in fridge-constant mode whose fridge setting is -32767 (just
under -64 °C, not the undefined sentinel) and whose upper idle range is -2: the
upper limit of the band over the integers, -32769, is below the 16-bit range. -/
def frozenControl : TempControl :=
  { sampleControl with
    cc := { defaultConstants with idleRangeHigh := -2 },
    cs := { sampleControl.cs with fridgeSetting := -32767 } }

/-! ## Machine arithmetic lemmas -/

theorem wrapInt16_eq_self {x : Int} (h : IsInt16 x) : wrapInt16 x = x := by
  unfold IsInt16 at h
  unfold wrapInt16
  omega

theorem wrapInt16_isInt16 (x : Int) : IsInt16 (wrapInt16 x) := by
  unfold IsInt16 wrapInt16
  omega

theorem wrapInt16_eq_self_iff (x : Int) : wrapInt16 x = x ↔ IsInt16 x := by
  constructor
  · intro h
    rw [← h]
    exact wrapInt16_isInt16 x
  · exact wrapInt16_eq_self

theorem wrapInt16_add_wrapInt16 (a b : Int) :
    wrapInt16 (a + wrapInt16 b) = wrapInt16 (a + b) := by
  unfold wrapInt16
  omega

theorem wrapInt32_eq_self {x : Int} (h1 : -2147483648 ≤ x) (h2 : x ≤ 2147483647) :
    wrapInt32 x = x := by
  unfold wrapInt32
  omega

theorem wrapUInt16_eq_self {n : Nat} (h : IsUInt16 n) : wrapUInt16 n = n := by
  unfold IsUInt16 at h
  unfold wrapUInt16
  omega

/-- The 32-bit product of a 16-bit signed coefficient and a 16-bit unsigned time
never leaves the 32-bit range. -/
theorem product_fits_int32 {e : Int} {n : Nat} (he : IsInt16 e) (hn : IsUInt16 n) :
    -2147483648 ≤ e * (n : Int) ∧ e * (n : Int) ≤ 2147483647 := by
  unfold IsInt16 at he
  unfold IsUInt16 at hn
  obtain ⟨h1, h2⟩ := he
  have h3 : (0 : Int) ≤ (n : Int) := Int.ofNat_nonneg n
  have h4 : (n : Int) ≤ 65535 := by omega
  constructor
  · nlinarith
  · nlinarith

theorem min_isUInt16 {a : Nat} (b : Nat) (ha : IsUInt16 a) : IsUInt16 (min a b) := by
  unfold IsUInt16 at *
  have := Nat.min_le_left a b
  omega

/-! ## The estimator -/

theorem updateEstimatedPeak_eq_wrap (inp : Inputs) (tc : TempControl) (time : Nat)
    (estimator : Int) (sinceIdle : Nat) (ht : IsUInt16 time) (he : IsInt16 estimator) :
    (updateEstimatedPeak inp time estimator sinceIdle tc).cv.estimatedPeak =
      wrapInt16 (exactPeak inp.fridgeFast time estimator sinceIdle) := by
  obtain ⟨h1, h2⟩ := product_fits_int32 he (min_isUInt16 sinceIdle ht)
  simp only [updateEstimatedPeak, exactPeak]
  rw [wrapInt32_eq_self h1 h2, wrapInt16_add_wrapInt16]

theorem updateEstimatedPeak_other_fields (inp : Inputs) (tc : TempControl) (time : Nat)
    (estimator : Int) (sinceIdle : Nat) :
    (updateEstimatedPeak inp time estimator sinceIdle tc).state = tc.state ∧
    (updateEstimatedPeak inp time estimator sinceIdle tc).cs = tc.cs ∧
    (updateEstimatedPeak inp time estimator sinceIdle tc).cv.negPeakEstimate
      = tc.cv.negPeakEstimate ∧
    (updateEstimatedPeak inp time estimator sinceIdle tc).cv.posPeakEstimate
      = tc.cv.posPeakEstimate ∧
    (updateEstimatedPeak inp time estimator sinceIdle tc).doNegPeakDetect
      = tc.doNegPeakDetect ∧
    (updateEstimatedPeak inp time estimator sinceIdle tc).doPosPeakDetect
      = tc.doPosPeakDetect ∧
    (updateEstimatedPeak inp time estimator sinceIdle tc).lastCoolTime = tc.lastCoolTime ∧
    (updateEstimatedPeak inp time estimator sinceIdle tc).lastHeatTime = tc.lastHeatTime := by
  simp [updateEstimatedPeak]

/-- The estimate does not depend on the controller it is stored in. -/
theorem updateEstimatedPeak_indep (inp : Inputs) (tc tc2 : TempControl) (time : Nat)
    (estimator : Int) (sinceIdle : Nat) :
    (updateEstimatedPeak inp time estimator sinceIdle tc).cv.estimatedPeak =
      (updateEstimatedPeak inp time estimator sinceIdle tc2).cv.estimatedPeak := by
  simp [updateEstimatedPeak]

theorem exactPeak_mono (reading : Int) (time : Nat) (estimator : Int) (s1 s2 : Nat)
    (he : 0 < estimator) (h : s1 ≤ s2) :
    exactPeak reading time estimator s1 ≤ exactPeak reading time estimator s2 := by
  unfold exactPeak
  have hm : min time s1 ≤ min time s2 := min_le_min (le_refl time) h
  have hm2 : ((min time s1 : Nat) : Int) ≤ ((min time s2 : Nat) : Int) := by exact_mod_cast hm
  have hp : estimator * ((min time s1 : Nat) : Int) ≤ estimator * ((min time s2 : Nat) : Int) :=
    Int.mul_le_mul_of_nonneg_left hm2 (le_of_lt he)
  have n1 : 0 ≤ estimator * ((min time s1 : Nat) : Int) :=
    Int.mul_nonneg (le_of_lt he) (Int.ofNat_nonneg _)
  have n2 : 0 ≤ estimator * ((min time s2 : Nat) : Int) :=
    Int.mul_nonneg (le_of_lt he) (Int.ofNat_nonneg _)
  rw [Int.tdiv_eq_ediv n1 (by decide), Int.tdiv_eq_ediv n2 (by decide)]
  have := Int.ediv_le_ediv (by decide : (0 : Int) < 3600) hp
  omega

theorem exactPeak_ge_reading (reading : Int) (time : Nat) (estimator : Int) (s : Nat)
    (he : 0 < estimator) : reading ≤ exactPeak reading time estimator s := by
  unfold exactPeak
  have n1 : 0 ≤ estimator * ((min time s : Nat) : Int) :=
    Int.mul_nonneg (le_of_lt he) (Int.ofNat_nonneg _)
  have := Int.tdiv_nonneg n1 (by decide : (0 : Int) ≤ 3600)
  omega

/-! ## Reduction lemmas for `updateState` -/

theorem updateState_of_reachesSwitch (lim : TimeLimits) (inp : Inputs) (tc : TempControl)
    (h : ReachesSwitch inp tc) :
    updateState lim inp tc =
      match tc.state with
      | State.STARTUP => idleCase lim inp tc
      | State.IDLE => idleCase lim inp tc
      | State.STATE_OFF => idleCase lim inp tc
      | State.COOLING => coolingCase lim inp tc
      | State.HEATING => heatingCase lim inp tc
      | State.DOOR_OPEN => doorOpenCase inp tc := by
  obtain ⟨hd, hm, hf, hc, hb⟩ := h
  unfold updateState
  rw [if_neg (by simp [hd]), if_neg hm, if_neg hf, if_neg]
  rcases hb with hb | ⟨hb1, hb2⟩
  · simp [hc, hb]
  · simp [hc, hb1, hb2]

theorem updateState_state_of_not_reachesSwitch (lim : TimeLimits) (inp : Inputs)
    (tc : TempControl) (h : ¬ ReachesSwitch inp tc) :
    (updateState lim inp tc).state = State.DOOR_OPEN ∨
    (updateState lim inp tc).state = State.STATE_OFF ∨
    (updateState lim inp tc).state = State.IDLE := by
  unfold updateState
  by_cases hd : inp.doorOpen = true
  · simp [hd]
  · by_cases hm : tc.cs.mode = Mode.MODE_OFF
    · simp [hd, hm]
    · by_cases hf : tc.cs.fridgeSetting = INT_MIN
      · simp [hd, hm, hf]
      · rw [if_neg hd, if_neg hm, if_neg hf, if_pos]
        · simp
        · by_contra hcon
          apply h
          refine ⟨by simpa using hd, hm, hf, ?_, ?_⟩
          · by_contra hx
            apply hcon
            simp at hx
            simp [hx]
          · by_contra hx
            apply hcon
            simp only [not_or, not_and_or, not_not] at hx
            rcases hx with ⟨hx1, hx2⟩
            simp at hx1
            rcases hx2 with hx2 | hx2 <;> simp [hx1, hx2]

/-- What the idle block can do to the state: leave it, or start cooling or heating
under exactly the conditions tested by the code. -/
theorem idleCase_state (lim : TimeLimits) (inp : Inputs) (tc : TempControl) :
    (idleCase lim inp tc).state = tc.state ∨
    ((idleCase lim inp tc).state = State.COOLING ∧
      tc.doNegPeakDetect = false ∧ tc.doPosPeakDetect = false ∧
      inp.fridgeFast > wrapInt16 (tc.cs.fridgeSetting + tc.cc.idleRangeHigh) ∧
      (tc.cs.mode = Mode.MODE_FRIDGE_CONSTANT →
        (inp.sinceCooling > lim.MIN_COOL_OFF_TIME_FRIDGE_CONSTANT ∧
          inp.sinceHeating > lim.MIN_SWITCH_TIME) ∨ tc.state = State.STARTUP) ∧
      (tc.cs.mode ≠ Mode.MODE_FRIDGE_CONSTANT →
        inp.beerFast ≥ tc.cs.beerSetting ∧
        ((inp.sinceCooling > lim.MIN_COOL_OFF_TIME ∧
          inp.sinceHeating > lim.MIN_SWITCH_TIME) ∨ tc.state = State.STARTUP))) ∨
    ((idleCase lim inp tc).state = State.HEATING ∧
      tc.doNegPeakDetect = false ∧ tc.doPosPeakDetect = false ∧
      ¬ inp.fridgeFast > wrapInt16 (tc.cs.fridgeSetting + tc.cc.idleRangeHigh) ∧
      inp.fridgeFast < wrapInt16 (tc.cs.fridgeSetting + tc.cc.idleRangeLow) ∧
      inp.beerFast ≤ tc.cs.beerSetting ∧
      ((inp.sinceCooling > lim.MIN_SWITCH_TIME ∧
          inp.sinceHeating > lim.MIN_HEAT_OFF_TIME) ∨ tc.state = State.STARTUP)) := by
  unfold idleCase
  simp only []
  split_ifs <;> simp_all

theorem coolingCase_state (lim : TimeLimits) (inp : Inputs) (tc : TempControl) :
    (coolingCase lim inp tc).state = tc.state ∨ (coolingCase lim inp tc).state = State.IDLE := by
  unfold coolingCase
  simp only []
  split_ifs <;> simp [updateEstimatedPeak]

theorem heatingCase_state (lim : TimeLimits) (inp : Inputs) (tc : TempControl) :
    (heatingCase lim inp tc).state = tc.state ∨ (heatingCase lim inp tc).state = State.IDLE := by
  unfold heatingCase
  simp only []
  split_ifs <;> simp [updateEstimatedPeak]

theorem doorOpenCase_state (inp : Inputs) (tc : TempControl) :
    (doorOpenCase inp tc).state = tc.state ∨ (doorOpenCase inp tc).state = State.IDLE := by
  unfold doorOpenCase
  split_ifs <;> simp


/-! ## The control state machine -/

/-- C1. Door open always wins: whatever the prior state, mode, settings and sensor
answers, when the door sensor reports open the state after `updateState` is
`DOOR_OPEN`. -/
theorem door_open_always_wins (lim : TimeLimits) (inp : Inputs) (tc : TempControl)
    (h : inp.doorOpen = true) : (updateState lim inp tc).state = State.DOOR_OPEN := by
  unfold updateState
  simp [h]

/-- The door opens while the controller is cooling. -/
theorem door_open_always_wins_witness :
    ({ sampleInputs with doorOpen := true } : Inputs).doorOpen = true ∧
    (updateState sampleLimits { sampleInputs with doorOpen := true } coolingControl).state
      = State.DOOR_OPEN :=
  ⟨rfl, door_open_always_wins sampleLimits { sampleInputs with doorOpen := true }
    coolingControl rfl⟩

/-- C2. Fail-safe on missing feedback or target: from every prior state, when the
fridge setting is the undefined sentinel, or the fridge sensor is disconnected, or
the beer sensor is disconnected in a beer-driven mode, the state after `updateState`
is neither `HEATING` nor `COOLING`, and it is `IDLE` when the door is closed and the
mode is not off. -/
theorem fail_safe_on_missing_feedback (lim : TimeLimits) (inp : Inputs) (tc : TempControl)
    (h : tc.cs.fridgeSetting = INT_MIN ∨ inp.fridgeConnected = false ∨
      (inp.beerConnected = false ∧
        (tc.cs.mode = Mode.MODE_BEER_CONSTANT ∨ tc.cs.mode = Mode.MODE_BEER_PROFILE))) :
    (updateState lim inp tc).state ≠ State.HEATING ∧
    (updateState lim inp tc).state ≠ State.COOLING ∧
    (inp.doorOpen = false → tc.cs.mode ≠ Mode.MODE_OFF →
      (updateState lim inp tc).state = State.IDLE) := by
  unfold updateState
  by_cases hd : inp.doorOpen = true
  · simp [hd]
  · by_cases hm : tc.cs.mode = Mode.MODE_OFF
    · simp [hd, hm]
    · by_cases hf : tc.cs.fridgeSetting = INT_MIN
      · simp [hd, hm, hf]
      · rcases h with h | h | ⟨h1, h2⟩
        · exact absurd h hf
        · simp [hd, hm, hf, h]
        · rcases h2 with h2 | h2 <;> simp [hd, hf, h1, h2]

/-- The fridge sensor drops out while the controller is cooling: the next state is
`IDLE`. -/
theorem fail_safe_on_missing_feedback_witness :
    coolingControl.state = State.COOLING ∧
    (updateState sampleLimits { sampleInputs with fridgeConnected := false }
      coolingControl).state = State.IDLE :=
  ⟨rfl,
    (fail_safe_on_missing_feedback sampleLimits { sampleInputs with fridgeConnected := false }
      coolingControl (Or.inr (Or.inl rfl))).2.2 rfl (by decide)⟩

/-- C3, as stated, fails: a tick that starts in `COOLING` (a state other than
`STARTUP`) with `sinceCooling = 0` and a warm fridge ends in `COOLING`, although
`sinceCooling` exceeds no threshold. -/
theorem anti_short_cycle_fails_from_cooling :
    coolingControl.state ≠ State.STARTUP ∧
    coolingControl.cs.mode = Mode.MODE_FRIDGE_CONSTANT ∧
    ({ sampleInputs with sinceCooling := 0 } : Inputs).sinceCooling = 0 ∧
    (updateState sampleLimits { sampleInputs with sinceCooling := 0 } coolingControl).state
      = State.COOLING ∧
    ¬ (({ sampleInputs with sinceCooling := 0 } : Inputs).sinceCooling
        > sampleLimits.MIN_COOL_OFF_TIME_FRIDGE_CONSTANT) := by
  decide

/-- C3, amended. Anti-short-cycle: for every tick that starts in a state other than
`STARTUP` and other than `COOLING`, for all readings and all thresholds, the state
after `updateState` is `COOLING` only if `sinceCooling` exceeds
`MIN_COOL_OFF_TIME_FRIDGE_CONSTANT` (mode fridge-constant) or `MIN_COOL_OFF_TIME`
(every other mode). -/
theorem anti_short_cycle (lim : TimeLimits) (inp : Inputs) (tc : TempControl)
    (hs : tc.state ≠ State.STARTUP) (hc : tc.state ≠ State.COOLING)
    (hr : (updateState lim inp tc).state = State.COOLING) :
    (tc.cs.mode = Mode.MODE_FRIDGE_CONSTANT →
        inp.sinceCooling > lim.MIN_COOL_OFF_TIME_FRIDGE_CONSTANT) ∧
    (tc.cs.mode ≠ Mode.MODE_FRIDGE_CONSTANT → inp.sinceCooling > lim.MIN_COOL_OFF_TIME) := by
  by_cases hsw : ReachesSwitch inp tc
  · rw [updateState_of_reachesSwitch lim inp tc hsw] at hr
    have hidle : (idleCase lim inp tc).state = State.COOLING →
        (tc.cs.mode = Mode.MODE_FRIDGE_CONSTANT →
          inp.sinceCooling > lim.MIN_COOL_OFF_TIME_FRIDGE_CONSTANT) ∧
        (tc.cs.mode ≠ Mode.MODE_FRIDGE_CONSTANT →
          inp.sinceCooling > lim.MIN_COOL_OFF_TIME) := by
      intro hi
      rcases idleCase_state lim inp tc with h | ⟨_, _, _, _, h1, h2⟩ | ⟨h, _⟩
      · rw [hi] at h
        exact absurd h.symm hc
      · constructor
        · intro hm
          rcases h1 hm with ⟨h, _⟩ | h
          · exact h
          · exact absurd h hs
        · intro hm
          rcases (h2 hm).2 with ⟨h, _⟩ | h
          · exact h
          · exact absurd h hs
      · rw [hi] at h
        cases h
    cases hst : tc.state
    · exact absurd hst hs
    · rw [hst] at hr
      exact hidle hr
    · rw [hst] at hr
      exact hidle hr
    · exact absurd hst hc
    · rw [hst] at hr
      rcases heatingCase_state lim inp tc with h | h
      · rw [hr, hst] at h
        cases h
      · rw [hr] at h
        cases h
    · rw [hst] at hr
      rcases doorOpenCase_state inp tc with h | h
      · rw [hr, hst] at h
        cases h
      · rw [hr] at h
        cases h
  · rcases updateState_state_of_not_reachesSwitch lim inp tc hsw with h | h | h <;>
      (rw [hr] at h; cases h)

/-- From `IDLE` with a warm fridge and every timer above its threshold the
controller starts cooling, and the cool-off time has indeed elapsed. -/
theorem anti_short_cycle_witness :
    sampleControl.state ≠ State.STARTUP ∧ sampleControl.state ≠ State.COOLING ∧
    (updateState sampleLimits sampleInputs sampleControl).state = State.COOLING ∧
    sampleInputs.sinceCooling > sampleLimits.MIN_COOL_OFF_TIME_FRIDGE_CONSTANT :=
  ⟨by decide, by decide, by decide,
    (anti_short_cycle sampleLimits sampleInputs sampleControl (by decide) (by decide)
      (by decide)).1 rfl⟩

/-- C4, as stated, fails: with `fridgeSetting = 32000`, `idleRangeHigh = 1000`,
`idleRangeLow = -1000` and `fridgeFast = 32500`, all 16-bit values, the reading lies
inside the band `31000 ≤ 32500 ≤ 33000` over the integers, yet a tick starting in
`IDLE` ends in `COOLING`: the 16-bit sum `32000 + 1000` is `-32536`. -/
theorem idle_band_fails_on_overflow :
    IsInt16 hotControl.cs.fridgeSetting ∧ IsInt16 hotControl.cc.idleRangeLow ∧
    IsInt16 hotControl.cc.idleRangeHigh ∧
    IsInt16 ({ sampleInputs with fridgeFast := 32500 } : Inputs).fridgeFast ∧
    hotControl.state = State.IDLE ∧
    hotControl.cs.fridgeSetting + hotControl.cc.idleRangeLow
      ≤ ({ sampleInputs with fridgeFast := 32500 } : Inputs).fridgeFast ∧
    ({ sampleInputs with fridgeFast := 32500 } : Inputs).fridgeFast
      ≤ hotControl.cs.fridgeSetting + hotControl.cc.idleRangeHigh ∧
    wrapInt16 (hotControl.cs.fridgeSetting + hotControl.cc.idleRangeHigh) = -32536 ∧
    (updateState sampleLimits { sampleInputs with fridgeFast := 32500 } hotControl).state
      = State.COOLING := by
  decide

/-- C4, amended. Idle-band exclusivity: for every tick that starts in `IDLE`, when
both limits of the band, `fridgeSetting + idleRangeLow` and
`fridgeSetting + idleRangeHigh`, are 16-bit values and the fridge reading lies
between them, the state after `updateState` is neither `COOLING` nor `HEATING`. -/
theorem idle_band_exclusive (lim : TimeLimits) (inp : Inputs) (tc : TempControl)
    (hs : tc.state = State.IDLE)
    (hlo : IsInt16 (tc.cs.fridgeSetting + tc.cc.idleRangeLow))
    (hhi : IsInt16 (tc.cs.fridgeSetting + tc.cc.idleRangeHigh))
    (h1 : tc.cs.fridgeSetting + tc.cc.idleRangeLow ≤ inp.fridgeFast)
    (h2 : inp.fridgeFast ≤ tc.cs.fridgeSetting + tc.cc.idleRangeHigh) :
    (updateState lim inp tc).state ≠ State.COOLING ∧
    (updateState lim inp tc).state ≠ State.HEATING := by
  by_cases hsw : ReachesSwitch inp tc
  · rw [updateState_of_reachesSwitch lim inp tc hsw, hs]
    simp only []
    rcases idleCase_state lim inp tc with h | ⟨_, _, _, h, _⟩ | ⟨_, _, _, _, h, _⟩
    · rw [h, hs]
      simp
    · rw [wrapInt16_eq_self hhi] at h
      omega
    · rw [wrapInt16_eq_self hlo] at h
      omega
  · rcases updateState_state_of_not_reachesSwitch lim inp tc hsw with h | h | h <;>
      (rw [h]; simp)

/-- The fridge at 10.5 °C, inside the band 9 °C to 11 °C of the sample controller:
the tick leaves the state at `IDLE`. -/
theorem idle_band_exclusive_witness :
    sampleControl.cs.fridgeSetting + sampleControl.cc.idleRangeLow ≤ 5376 ∧
    5376 ≤ sampleControl.cs.fridgeSetting + sampleControl.cc.idleRangeHigh ∧
    (updateState sampleLimits { sampleInputs with fridgeFast := 5376 } sampleControl).state
      ≠ State.COOLING ∧
    (updateState sampleLimits { sampleInputs with fridgeFast := 5376 } sampleControl).state
      ≠ State.HEATING :=
  ⟨by decide, by decide,
    idle_band_exclusive sampleLimits { sampleInputs with fridgeFast := 5376 } sampleControl
      rfl (by decide) (by decide) (by decide) (by decide)⟩

/-- In fridge-constant mode, from `IDLE` with the door closed, a defined fridge
setting, the fridge sensor connected and no peak-detect flag set, the controller
starts cooling when the fridge reading exceeds the 16-bit sum
`fridgeSetting + idleRangeHigh` and both timers have elapsed. -/
theorem idle_starts_cooling_of_test (lim : TimeLimits) (inp : Inputs) (tc : TempControl)
    (hm : tc.cs.mode = Mode.MODE_FRIDGE_CONSTANT) (hs : tc.state = State.IDLE)
    (hd : inp.doorOpen = false) (hf : tc.cs.fridgeSetting ≠ INT_MIN)
    (hc : inp.fridgeConnected = true)
    (hp : tc.doPosPeakDetect = false) (hn : tc.doNegPeakDetect = false)
    (hhi : inp.fridgeFast > wrapInt16 (tc.cs.fridgeSetting + tc.cc.idleRangeHigh))
    (h1 : inp.sinceCooling > lim.MIN_COOL_OFF_TIME_FRIDGE_CONSTANT)
    (h2 : inp.sinceHeating > lim.MIN_SWITCH_TIME) :
    (updateState lim inp tc).state = State.COOLING := by
  have hsw : ReachesSwitch inp tc := ⟨hd, by simp [hm], hf, hc, Or.inr (by simp [hm])⟩
  rw [updateState_of_reachesSwitch lim inp tc hsw, hs]
  simp only []
  unfold idleCase
  simp [hn, hp, hm, hhi, h1, h2]

/-- The 16-bit reduction never raises a value that is not below the 16-bit range. -/
theorem wrapInt16_le_self {x : Int} (h : -32768 ≤ x) : wrapInt16 x ≤ x := by
  unfold wrapInt16
  omega

/-- C5, as stated, fails: in fridge-constant mode, from `IDLE` with the door closed,
the fridge setting defined (`-32767`, not the sentinel), the fridge sensor connected,
no peak-detect flag set and both timers at 9999 s, the fridge reading `5888` exceeds
`fridgeSetting + idleRangeHigh = -32767 + -2 = -32769` over the integers, yet the
state after `updateState` is `HEATING`, not `COOLING`: the 16-bit sum is `32767`. -/
theorem cooling_not_started_on_underflow :
    frozenControl.cs.mode = Mode.MODE_FRIDGE_CONSTANT ∧ frozenControl.state = State.IDLE ∧
    sampleInputs.doorOpen = false ∧ frozenControl.cs.fridgeSetting ≠ INT_MIN ∧
    IsInt16 frozenControl.cs.fridgeSetting ∧ IsInt16 frozenControl.cc.idleRangeHigh ∧
    IsInt16 sampleInputs.fridgeFast ∧
    sampleInputs.fridgeConnected = true ∧
    frozenControl.doPosPeakDetect = false ∧ frozenControl.doNegPeakDetect = false ∧
    sampleInputs.fridgeFast > frozenControl.cs.fridgeSetting + frozenControl.cc.idleRangeHigh ∧
    sampleInputs.sinceCooling > sampleLimits.MIN_COOL_OFF_TIME_FRIDGE_CONSTANT ∧
    sampleInputs.sinceHeating > sampleLimits.MIN_SWITCH_TIME ∧
    wrapInt16 (frozenControl.cs.fridgeSetting + frozenControl.cc.idleRangeHigh) = 32767 ∧
    (updateState sampleLimits sampleInputs frozenControl).state = State.HEATING ∧
    (updateState sampleLimits sampleInputs frozenControl).state ≠ State.COOLING := by
  decide

/-- C5, amended. Cooling starts when due: in fridge-constant mode, from `IDLE` with
the door closed, the fridge setting defined, the fridge sensor connected and no
peak-detect flag set, when `fridgeSetting + idleRangeHigh` is not below the 16-bit
range (at least -32768), the fridge reading exceeds it, `sinceCooling` exceeds
`MIN_COOL_OFF_TIME_FRIDGE_CONSTANT` and `sinceHeating` exceeds `MIN_SWITCH_TIME`, the
state after `updateState` is `COOLING`. -/
theorem cooling_starts_when_due (lim : TimeLimits) (inp : Inputs) (tc : TempControl)
    (hm : tc.cs.mode = Mode.MODE_FRIDGE_CONSTANT) (hs : tc.state = State.IDLE)
    (hd : inp.doorOpen = false) (hf : tc.cs.fridgeSetting ≠ INT_MIN)
    (hc : inp.fridgeConnected = true)
    (hp : tc.doPosPeakDetect = false) (hn : tc.doNegPeakDetect = false)
    (hrep : -32768 ≤ tc.cs.fridgeSetting + tc.cc.idleRangeHigh)
    (hhi : inp.fridgeFast > tc.cs.fridgeSetting + tc.cc.idleRangeHigh)
    (h1 : inp.sinceCooling > lim.MIN_COOL_OFF_TIME_FRIDGE_CONSTANT)
    (h2 : inp.sinceHeating > lim.MIN_SWITCH_TIME) :
    (updateState lim inp tc).state = State.COOLING := by
  have hw := wrapInt16_le_self hrep
  exact idle_starts_cooling_of_test lim inp tc hm hs hd hf hc hp hn (by omega) h1 h2

/-- The scenario of the specification: setting 10 °C (5120), idle range 1 °C (512),
fridge at 11.5 °C (5888), both timers at 9999 s, thresholds below 9999 s. -/
theorem cooling_starts_when_due_witness :
    sampleControl.cs.fridgeSetting = 5120 ∧ sampleControl.cc.idleRangeHigh = 512 ∧
    sampleInputs.fridgeFast = 5888 ∧ sampleInputs.sinceCooling = 9999 ∧
    sampleInputs.sinceHeating = 9999 ∧
    (updateState sampleLimits sampleInputs sampleControl).state = State.COOLING :=
  ⟨rfl, rfl, rfl, rfl, rfl,
    cooling_starts_when_due sampleLimits sampleInputs sampleControl rfl rfl rfl (by decide)
      rfl rfl rfl (by decide) (by decide) (by decide) (by decide)⟩

/-- C6, as stated, fails: in beer-constant mode with the beer below its setting
(`beerFast = 9984 < 10240`) and the fridge above its idle band, a tick that starts
in `STARTUP` with the door open does not leave the state unchanged: it ends in
`DOOR_OPEN`. -/
theorem beer_gate_state_changes_when_door_open :
    beerControl.cs.mode = Mode.MODE_BEER_CONSTANT ∧ beerControl.state = State.STARTUP ∧
    beerControl.cs.beerSetting = 10240 ∧
    ({ sampleInputs with beerFast := 9984, doorOpen := true } : Inputs).beerFast = 9984 ∧
    ({ sampleInputs with beerFast := 9984, doorOpen := true } : Inputs).fridgeFast
      > beerControl.cs.fridgeSetting + beerControl.cc.idleRangeHigh ∧
    (updateState sampleLimits { sampleInputs with beerFast := 9984, doorOpen := true }
      beerControl).state = State.DOOR_OPEN ∧
    (updateState sampleLimits { sampleInputs with beerFast := 9984, doorOpen := true }
      beerControl).state ≠ beerControl.state := by
  decide

/-- C6, amended. Beer gate on cooling: in every mode other than fridge-constant
(off need not be excluded), for every tick starting in `STARTUP`, `IDLE` or `STATE_OFF`, `updateState`
enters `COOLING` only if `beerFast ≥ beerSetting`; and when `beerFast < beerSetting`
and the tick reaches the state logic (door closed, fridge setting defined, required
sensors connected) with the fridge above its idle band, the state is left unchanged
whatever the timers are, `STARTUP` included. -/
theorem beer_gate_on_cooling (lim : TimeLimits) (inp : Inputs) (tc : TempControl)
    (hm1 : tc.cs.mode ≠ Mode.MODE_FRIDGE_CONSTANT)
    (hs : tc.state = State.STARTUP ∨ tc.state = State.IDLE ∨ tc.state = State.STATE_OFF) :
    ((updateState lim inp tc).state = State.COOLING → inp.beerFast ≥ tc.cs.beerSetting) ∧
    (inp.beerFast < tc.cs.beerSetting → ReachesSwitch inp tc →
      inp.fridgeFast > wrapInt16 (tc.cs.fridgeSetting + tc.cc.idleRangeHigh) →
      (updateState lim inp tc).state = tc.state) := by
  have hsw_eq : ReachesSwitch inp tc → updateState lim inp tc = idleCase lim inp tc := by
    intro hsw
    rw [updateState_of_reachesSwitch lim inp tc hsw]
    rcases hs with h | h | h <;> rw [h]
  constructor
  · intro hr
    by_cases hsw : ReachesSwitch inp tc
    · rw [hsw_eq hsw] at hr
      rcases idleCase_state lim inp tc with h | ⟨_, _, _, _, _, h⟩ | ⟨h, _⟩
      · rw [hr] at h
        rcases hs with h2 | h2 | h2 <;> (rw [h2] at h; cases h)
      · exact (h hm1).1
      · rw [hr] at h
        cases h
    · rcases updateState_state_of_not_reachesSwitch lim inp tc hsw with h | h | h <;>
        (rw [hr] at h; cases h)
  · intro hb hsw hhi
    rw [hsw_eq hsw]
    rcases idleCase_state lim inp tc with h | ⟨_, _, _, _, _, h⟩ | ⟨_, _, _, h, _⟩
    · exact h
    · have := (h hm1).1
      omega
    · exact absurd hhi h

/-- The scenario of the specification, started in `STARTUP`: beer-constant mode,
beer setting 20 °C (10240), beer at 19.5 °C (9984), fridge above its idle band; the
state stays `STARTUP`. -/
theorem beer_gate_on_cooling_witness :
    beerControl.cs.mode = Mode.MODE_BEER_CONSTANT ∧ beerControl.cs.beerSetting = 10240 ∧
    ({ sampleInputs with beerFast := 9984 } : Inputs).beerFast = 9984 ∧
    (updateState sampleLimits { sampleInputs with beerFast := 9984 } beerControl).state
      = State.STARTUP :=
  ⟨rfl, rfl, rfl,
    (beer_gate_on_cooling sampleLimits { sampleInputs with beerFast := 9984 } beerControl
      (by decide) (Or.inl rfl)).2 (by decide) (by decide) (by decide)⟩

/-- C7. Cooling exit rule: for every tick that starts in `COOLING` and reaches the
state logic, with `peak` the estimate freshly computed from the cooling window and
coefficient and stored in `estimatedPeak`: the state after `updateState` is `IDLE`
if and only if `peak ≤ fridgeSetting` and `sinceIdle > MIN_COOL_ON_TIME`; in that
case `negPeakEstimate` is `peak`, otherwise the state stays `COOLING` and
`negPeakEstimate` is unchanged; in both cases `doNegPeakDetect` is true and
`lastCoolTime` is the clock value (a 16-bit count of seconds). -/
theorem cooling_exit_rule (lim : TimeLimits) (inp : Inputs) (tc : TempControl)
    (hs : tc.state = State.COOLING) (hsw : ReachesSwitch inp tc)
    (hsecs : IsUInt16 inp.secs) :
    (updateState lim inp tc).cv.estimatedPeak =
      (updateEstimatedPeak inp tc.cc.maxCoolTimeForEstimate tc.cs.coolEstimator
        inp.sinceIdle tc).cv.estimatedPeak ∧
    ((updateState lim inp tc).state = State.IDLE ↔
      ((updateState lim inp tc).cv.estimatedPeak ≤ tc.cs.fridgeSetting ∧
        inp.sinceIdle > lim.MIN_COOL_ON_TIME)) ∧
    (((updateState lim inp tc).cv.estimatedPeak ≤ tc.cs.fridgeSetting ∧
        inp.sinceIdle > lim.MIN_COOL_ON_TIME) →
      (updateState lim inp tc).cv.negPeakEstimate
        = (updateState lim inp tc).cv.estimatedPeak) ∧
    (¬ ((updateState lim inp tc).cv.estimatedPeak ≤ tc.cs.fridgeSetting ∧
        inp.sinceIdle > lim.MIN_COOL_ON_TIME) →
      (updateState lim inp tc).state = State.COOLING ∧
      (updateState lim inp tc).cv.negPeakEstimate = tc.cv.negPeakEstimate) ∧
    (updateState lim inp tc).doNegPeakDetect = true ∧
    (updateState lim inp tc).lastCoolTime = inp.secs := by
  rw [updateState_of_reachesSwitch lim inp tc hsw, hs]
  simp only []
  unfold coolingCase
  simp only [wrapUInt16_eq_self hsecs, updateEstimatedPeak]
  generalize wrapInt16 (inp.fridgeFast + _) = p
  split_ifs with h1 h2
  · simp [h1, h2]
  · simp [h1, h2, hs]
  · simp [h1, hs]

/-- The scenario of the specification: cooling, the estimate equal to the fridge
setting (reading 5120, coefficient 0), `sinceIdle = 9999 > MIN_COOL_ON_TIME`: the
next state is `IDLE` and `negPeakEstimate` is that estimate. -/
theorem cooling_exit_rule_witness :
    (updateState sampleLimits { sampleInputs with fridgeFast := 5120 }
      { coolingControl with cs := { coolingControl.cs with coolEstimator := 0 } }).state
      = State.IDLE ∧
    (updateState sampleLimits { sampleInputs with fridgeFast := 5120 }
      { coolingControl with cs := { coolingControl.cs with coolEstimator := 0 }
      }).cv.negPeakEstimate = 5120 ∧
    (updateState sampleLimits { sampleInputs with fridgeFast := 5120 }
      { coolingControl with cs := { coolingControl.cs with coolEstimator := 0 }
      }).lastCoolTime = 20000 :=
  ⟨((cooling_exit_rule sampleLimits { sampleInputs with fridgeFast := 5120 }
      { coolingControl with cs := { coolingControl.cs with coolEstimator := 0 } }
      rfl (by decide) (by decide)).2.1).2 (by decide),
    by decide, by decide⟩


/-! ## The peak estimator -/

/-- C8, as stated, fails: with the 16-bit inputs `maxWindow = sinceIdle = 36000`,
coefficient `5120` and fridge reading `5120`, the exact value
`5120 + (5120 * 36000) / 3600` is `56320`, but `updateEstimatedPeak` stores `-9216`:
the quotient `51200` does not fit the 16-bit `estimatedOvershoot`. -/
theorem estimator_formula_fails_on_overflow :
    IsUInt16 36000 ∧ IsInt16 5120 ∧
    ({ sampleInputs with fridgeFast := 5120 } : Inputs).fridgeFast = 5120 ∧
    exactPeak 5120 36000 5120 36000 = 56320 ∧
    (updateEstimatedPeak { sampleInputs with fridgeFast := 5120 } 36000 5120 36000
      sampleControl).cv.estimatedPeak = -9216 ∧
    (updateEstimatedPeak { sampleInputs with fridgeFast := 5120 } 36000 5120 36000
      sampleControl).cv.estimatedPeak ≠ exactPeak 5120 36000 5120 36000 := by
  decide

/-- C8, amended. Peak estimator formula: for every 16-bit `maxWindow` and estimator
coefficient and every `sinceIdle` and fridge reading, the widened product
`coefficient * min(maxWindow, sinceIdle)` is exact (it fits 32 bits), and
`updateEstimatedPeak` sets `estimatedPeak` to the exact value
`reading + (coefficient * min(maxWindow, sinceIdle)) / 3600` reduced to the signed
16-bit range; so `estimatedPeak` is the exact value precisely when the exact value
is a signed 16-bit number. -/
theorem estimator_formula (inp : Inputs) (tc : TempControl) (maxWindow : Nat)
    (estimator : Int) (sinceIdle : Nat)
    (hw : IsUInt16 maxWindow) (he : IsInt16 estimator) :
    wrapInt32 (estimator * ((min maxWindow sinceIdle : Nat) : Int))
      = estimator * ((min maxWindow sinceIdle : Nat) : Int) ∧
    (updateEstimatedPeak inp maxWindow estimator sinceIdle tc).cv.estimatedPeak =
      wrapInt16 (exactPeak inp.fridgeFast maxWindow estimator sinceIdle) ∧
    ((updateEstimatedPeak inp maxWindow estimator sinceIdle tc).cv.estimatedPeak =
        exactPeak inp.fridgeFast maxWindow estimator sinceIdle ↔
      IsInt16 (exactPeak inp.fridgeFast maxWindow estimator sinceIdle)) := by
  have h := updateEstimatedPeak_eq_wrap inp tc maxWindow estimator sinceIdle hw he
  obtain ⟨h1, h2⟩ := product_fits_int32 he (min_isUInt16 sinceIdle hw)
  refine ⟨wrapInt32_eq_self h1 h2, h, ?_⟩
  rw [h]
  exact wrapInt16_eq_self_iff _

/-- With the default cooling window of 1200 s, coefficient 2560 and the fridge at
11.5 °C (5888) the estimate is the exact value `5888 + (2560 * 1200) / 3600 = 6741`. -/
theorem estimator_formula_witness :
    IsUInt16 1200 ∧ IsInt16 2560 ∧
    (updateEstimatedPeak sampleInputs 1200 2560 9999 sampleControl).cv.estimatedPeak
      = exactPeak sampleInputs.fridgeFast 1200 2560 9999 ∧
    exactPeak sampleInputs.fridgeFast 1200 2560 9999 = 6741 :=
  ⟨by decide, by decide,
    ((estimator_formula sampleInputs sampleControl 1200 2560 9999 (by decide)
      (by decide)).2.2).2 (by decide),
    by decide⟩

/-- C9, as stated, fails: with fridge reading `5120`, coefficient `5120 > 0` and
`maxWindow = 36000`, the estimate at `sinceIdle = 0` is `5120` and the estimate at
`sinceIdle = 36000` is `-9216`, so it decreases although `0 ≤ 36000 ≤ maxWindow`. -/
theorem estimator_not_monotone_on_overflow :
    (0 : Int) < 5120 ∧ (0 : Nat) ≤ 36000 ∧ (36000 : Nat) ≤ 36000 ∧
    (updateEstimatedPeak { sampleInputs with fridgeFast := 5120 } 36000 5120 0
      sampleControl).cv.estimatedPeak = 5120 ∧
    (updateEstimatedPeak { sampleInputs with fridgeFast := 5120 } 36000 5120 36000
      sampleControl).cv.estimatedPeak = -9216 ∧
    ¬ ((updateEstimatedPeak { sampleInputs with fridgeFast := 5120 } 36000 5120 0
        sampleControl).cv.estimatedPeak ≤
      (updateEstimatedPeak { sampleInputs with fridgeFast := 5120 } 36000 5120 36000
        sampleControl).cv.estimatedPeak) := by
  decide

/-- C9, amended. Estimator monotonicity: for every 16-bit fridge reading, every
16-bit estimator coefficient `> 0` and every 16-bit `maxWindow`, the `estimatedPeak`
produced by `updateEstimatedPeak` is non-decreasing in `sinceIdle` for
`sinceIdle ≤ maxWindow` as long as the exact estimate does not exceed 32767 (no
16-bit overflow): `s1 ≤ s2 ≤ maxWindow` and an exact estimate at `s2` of at most
32767 imply `peak(s1) ≤ peak(s2)`; and for every fridge reading, coefficient and
`maxWindow` whatsoever, overflow or not, for every `sinceIdle ≥ maxWindow` it equals
the value at `sinceIdle = maxWindow`. -/
theorem estimator_monotone (inp : Inputs) (tc : TempControl) (maxWindow : Nat)
    (estimator : Int) :
    (0 < estimator → IsInt16 estimator → IsUInt16 maxWindow → IsInt16 inp.fridgeFast →
      ∀ s1 s2 : Nat, s1 ≤ s2 → s2 ≤ maxWindow →
        exactPeak inp.fridgeFast maxWindow estimator s2 ≤ 32767 →
        (updateEstimatedPeak inp maxWindow estimator s1 tc).cv.estimatedPeak ≤
          (updateEstimatedPeak inp maxWindow estimator s2 tc).cv.estimatedPeak) ∧
    (∀ s : Nat, maxWindow ≤ s →
      (updateEstimatedPeak inp maxWindow estimator s tc).cv.estimatedPeak =
        (updateEstimatedPeak inp maxWindow estimator maxWindow tc).cv.estimatedPeak) := by
  constructor
  · intro hpos he hw hf s1 s2 h12 _ hfit
    have hm := exactPeak_mono inp.fridgeFast maxWindow estimator s1 s2 hpos h12
    have h1 := exactPeak_ge_reading inp.fridgeFast maxWindow estimator s1 hpos
    have h2 := exactPeak_ge_reading inp.fridgeFast maxWindow estimator s2 hpos
    have hin1 : IsInt16 (exactPeak inp.fridgeFast maxWindow estimator s1) := by
      unfold IsInt16 at hf ⊢
      omega
    have hin2 : IsInt16 (exactPeak inp.fridgeFast maxWindow estimator s2) := by
      unfold IsInt16 at hf ⊢
      omega
    rw [updateEstimatedPeak_eq_wrap inp tc maxWindow estimator s1 hw he,
      updateEstimatedPeak_eq_wrap inp tc maxWindow estimator s2 hw he,
      wrapInt16_eq_self hin1, wrapInt16_eq_self hin2]
    exact hm
  · intro s hs
    simp only [updateEstimatedPeak, min_eq_left hs, min_self]

/-- With the default cooling window (1200 s), coefficient 2560 and the fridge at
11.5 °C, the estimate after 600 s is at most the estimate after 1200 s; and with
the overflowing window of ten hours and coefficient 5120 the estimate after
40000 s is still the estimate after 36000 s. -/
theorem estimator_monotone_witness :
    (updateEstimatedPeak sampleInputs 1200 2560 600 sampleControl).cv.estimatedPeak ≤
      (updateEstimatedPeak sampleInputs 1200 2560 1200 sampleControl).cv.estimatedPeak ∧
    (updateEstimatedPeak sampleInputs 36000 5120 40000 sampleControl).cv.estimatedPeak =
      (updateEstimatedPeak sampleInputs 36000 5120 36000 sampleControl).cv.estimatedPeak :=
  ⟨(estimator_monotone sampleInputs sampleControl 1200 2560).1 (by decide) (by decide)
      (by decide) (by decide) 600 1200 (by decide) (by decide) (by decide),
    (estimator_monotone sampleInputs sampleControl 36000 5120).2 40000 (by decide)⟩

/-! ## The output driver -/

/-- C10. Output mapping: `updateOutputs` changes nothing when the mode is `TEST`;
in every other mode the cooler is active iff the state is `COOLING`, and either
(`LIGHT_AS_HEATER`) the heater is active iff the state is `HEATING` or `DOOR_OPEN`
and the light is untouched, or (otherwise) the heater is active iff the state is
`HEATING` and the light is active iff the state is `DOOR_OPEN`; the control state
is never modified. -/
theorem output_mapping (lightAsHeater : Bool) (tc : TempControl) :
    (tc.cs.mode = Mode.MODE_TEST → updateOutputs lightAsHeater tc = tc) ∧
    (tc.cs.mode ≠ Mode.MODE_TEST →
      ((updateOutputs lightAsHeater tc).coolerActive = true ↔ tc.state = State.COOLING) ∧
      (lightAsHeater = true →
        ((updateOutputs lightAsHeater tc).heaterActive = true ↔
          (tc.state = State.HEATING ∨ tc.state = State.DOOR_OPEN)) ∧
        (updateOutputs lightAsHeater tc).lightActive = tc.lightActive) ∧
      (lightAsHeater = false →
        ((updateOutputs lightAsHeater tc).heaterActive = true ↔ tc.state = State.HEATING) ∧
        ((updateOutputs lightAsHeater tc).lightActive = true ↔
          tc.state = State.DOOR_OPEN))) ∧
    (updateOutputs lightAsHeater tc).state = tc.state := by
  unfold updateOutputs
  by_cases hm : tc.cs.mode = Mode.MODE_TEST
  · simp [hm]
  · cases lightAsHeater
    · simp [hm]
    · simp [hm]
      exact or_comm

/-- A cooling controller in fridge-constant mode, light used as door indicator: the
cooler is switched on, heater and light are switched off. -/
theorem output_mapping_witness :
    (updateOutputs false { coolingControl with heaterActive := true, lightActive := true
      }).coolerActive = true ∧
    (updateOutputs false { coolingControl with heaterActive := true, lightActive := true
      }).heaterActive = false ∧
    (updateOutputs false { coolingControl with heaterActive := true, lightActive := true
      }).lightActive = false :=
  ⟨((output_mapping false { coolingControl with heaterActive := true, lightActive := true
      }).2.1 (by decide)).1.2 rfl,
    by decide, by decide⟩


/-! ## What a tick leaves alone -/

theorem idleCase_frame (lim : TimeLimits) (inp : Inputs) (tc : TempControl) :
    (idleCase lim inp tc).cs = tc.cs ∧ (idleCase lim inp tc).cc = tc.cc ∧
    (idleCase lim inp tc).cv = tc.cv ∧
    (idleCase lim inp tc).doPosPeakDetect = tc.doPosPeakDetect ∧
    (idleCase lim inp tc).doNegPeakDetect = tc.doNegPeakDetect ∧
    (idleCase lim inp tc).storedBeerSetting = tc.storedBeerSetting ∧
    (idleCase lim inp tc).settingsWrites = tc.settingsWrites ∧
    (idleCase lim inp tc).resetCalls = tc.resetCalls ∧
    (idleCase lim inp tc).annotations = tc.annotations ∧
    (idleCase lim inp tc).lastIdleTime = wrapUInt16 inp.secs ∧
    (idleCase lim inp tc).lastCoolTime = tc.lastCoolTime ∧
    (idleCase lim inp tc).lastHeatTime = tc.lastHeatTime := by
  unfold idleCase
  simp only []
  split_ifs <;> simp

theorem coolingCase_frame (lim : TimeLimits) (inp : Inputs) (tc : TempControl) :
    (coolingCase lim inp tc).cs = tc.cs ∧ (coolingCase lim inp tc).cc = tc.cc ∧
    (coolingCase lim inp tc).doPosPeakDetect = tc.doPosPeakDetect ∧
    (coolingCase lim inp tc).doNegPeakDetect = true ∧
    (coolingCase lim inp tc).storedBeerSetting = tc.storedBeerSetting ∧
    (coolingCase lim inp tc).settingsWrites = tc.settingsWrites ∧
    (coolingCase lim inp tc).resetCalls = tc.resetCalls ∧
    (coolingCase lim inp tc).annotations = tc.annotations := by
  unfold coolingCase
  simp only [updateEstimatedPeak]
  split_ifs <;> simp

theorem heatingCase_frame (lim : TimeLimits) (inp : Inputs) (tc : TempControl) :
    (heatingCase lim inp tc).cs = tc.cs ∧ (heatingCase lim inp tc).cc = tc.cc ∧
    (heatingCase lim inp tc).doPosPeakDetect = true ∧
    (heatingCase lim inp tc).doNegPeakDetect = tc.doNegPeakDetect ∧
    (heatingCase lim inp tc).storedBeerSetting = tc.storedBeerSetting ∧
    (heatingCase lim inp tc).settingsWrites = tc.settingsWrites ∧
    (heatingCase lim inp tc).resetCalls = tc.resetCalls ∧
    (heatingCase lim inp tc).annotations = tc.annotations := by
  unfold heatingCase
  simp only [updateEstimatedPeak]
  split_ifs <;> simp

theorem doorOpenCase_frame (inp : Inputs) (tc : TempControl) :
    (doorOpenCase inp tc).cs = tc.cs ∧ (doorOpenCase inp tc).cc = tc.cc ∧
    (doorOpenCase inp tc).cv = tc.cv ∧
    (doorOpenCase inp tc).doPosPeakDetect = tc.doPosPeakDetect ∧
    (doorOpenCase inp tc).doNegPeakDetect = tc.doNegPeakDetect ∧
    (doorOpenCase inp tc).storedBeerSetting = tc.storedBeerSetting ∧
    (doorOpenCase inp tc).settingsWrites = tc.settingsWrites ∧
    (doorOpenCase inp tc).resetCalls = tc.resetCalls := by
  unfold doorOpenCase
  split_ifs <;> simp

/-- A tick that takes one of the four early returns changes the state and, when the
door has just opened, the annotations, and nothing else. -/
theorem updateState_of_not_reachesSwitch (lim : TimeLimits) (inp : Inputs)
    (tc : TempControl) (h : ¬ ReachesSwitch inp tc) :
    updateState lim inp tc =
      { tc with state := (updateState lim inp tc).state,
                annotations := (updateState lim inp tc).annotations } := by
  by_cases hd : inp.doorOpen = true
  · unfold updateState
    simp only [hd, if_true]
    split_ifs <;> rfl
  · by_cases hm : tc.cs.mode = Mode.MODE_OFF
    · unfold updateState
      simp [hd, hm]
    · by_cases hf : tc.cs.fridgeSetting = INT_MIN
      · unfold updateState
        simp [hd, hm, hf]
      · have hc : (!inp.fridgeConnected ||
            (!inp.beerConnected &&
              (decide (tc.cs.mode = Mode.MODE_BEER_CONSTANT) ||
                decide (tc.cs.mode = Mode.MODE_BEER_PROFILE)))) = true := by
          by_contra hcon
          apply h
          simp only [Bool.not_eq_true, Bool.or_eq_false_iff, Bool.and_eq_false_imp,
            Bool.not_eq_eq_eq_not, Bool.not_true, Bool.not_false, decide_eq_false_iff_not]
            at hcon
          refine ⟨by simpa using hd, hm, hf, hcon.1, ?_⟩
          by_cases hb : inp.beerConnected = true
          · exact Or.inl hb
          · exact Or.inr (hcon.2 (by simpa using hb))
        unfold updateState
        rw [if_neg hd, if_neg hm, if_neg hf, if_pos hc]

theorem updateState_frame (lim : TimeLimits) (inp : Inputs) (tc : TempControl) :
    (updateState lim inp tc).cs = tc.cs ∧ (updateState lim inp tc).cc = tc.cc ∧
    (updateState lim inp tc).storedBeerSetting = tc.storedBeerSetting ∧
    (updateState lim inp tc).settingsWrites = tc.settingsWrites ∧
    (updateState lim inp tc).resetCalls = tc.resetCalls := by
  by_cases hsw : ReachesSwitch inp tc
  · rw [updateState_of_reachesSwitch lim inp tc hsw]
    have h1 := idleCase_frame lim inp tc
    have h2 := coolingCase_frame lim inp tc
    have h3 := heatingCase_frame lim inp tc
    have h4 := doorOpenCase_frame inp tc
    cases tc.state <;> simp only [] <;> tauto
  · rw [updateState_of_not_reachesSwitch lim inp tc hsw]
    simp


theorem reachesSwitch_congr (inp : Inputs) (tc1 tc2 : TempControl) (h : tc1.cs = tc2.cs) :
    ReachesSwitch inp tc1 ↔ ReachesSwitch inp tc2 := by
  unfold ReachesSwitch
  rw [h]

/-- A tick never clears a peak-detect flag; it sets `doNegPeakDetect` exactly when it
runs the `COOLING` block and `doPosPeakDetect` exactly when it runs the `HEATING`
block. -/
theorem updateState_flags (lim : TimeLimits) (inp : Inputs) (tc : TempControl) :
    ((updateState lim inp tc).doNegPeakDetect = true ↔
      (tc.doNegPeakDetect = true ∨ (ReachesSwitch inp tc ∧ tc.state = State.COOLING))) ∧
    ((updateState lim inp tc).doPosPeakDetect = true ↔
      (tc.doPosPeakDetect = true ∨ (ReachesSwitch inp tc ∧ tc.state = State.HEATING))) := by
  by_cases hsw : ReachesSwitch inp tc
  · rw [updateState_of_reachesSwitch lim inp tc hsw]
    have h1 := idleCase_frame lim inp tc
    have h2 := coolingCase_frame lim inp tc
    have h3 := heatingCase_frame lim inp tc
    have h4 := doorOpenCase_frame inp tc
    cases hst : tc.state <;> simp only [] <;> simp [h1, h2, h3, h4, hsw]
  · rw [updateState_of_not_reachesSwitch lim inp tc hsw]
    simp [hsw]

/-- The state chosen by the idle block depends only on the inputs, the constants,
the settings, the flags and the state it starts from. -/
theorem idleCase_state_congr (lim : TimeLimits) (inp : Inputs) (tc1 tc2 : TempControl)
    (hcc : tc1.cc = tc2.cc) (hcs : tc1.cs = tc2.cs) (hst : tc1.state = tc2.state)
    (hp : tc1.doPosPeakDetect = tc2.doPosPeakDetect)
    (hn : tc1.doNegPeakDetect = tc2.doNegPeakDetect) :
    (idleCase lim inp tc1).state = (idleCase lim inp tc2).state := by
  unfold idleCase
  simp only [hcc, hcs, hst, hp, hn]
  split_ifs <;> simp [hst]

/-- The state chosen by the cooling block depends only on the inputs, the constants
and the settings. -/
theorem coolingCase_state_congr (lim : TimeLimits) (inp : Inputs) (tc1 tc2 : TempControl)
    (hcc : tc1.cc = tc2.cc) (hcs : tc1.cs = tc2.cs) (hst : tc1.state = tc2.state) :
    (coolingCase lim inp tc1).state = (coolingCase lim inp tc2).state := by
  unfold coolingCase
  simp only [updateEstimatedPeak, hcc, hcs, hst]
  split_ifs <;> simp [hst]

theorem heatingCase_state_congr (lim : TimeLimits) (inp : Inputs) (tc1 tc2 : TempControl)
    (hcc : tc1.cc = tc2.cc) (hcs : tc1.cs = tc2.cs) (hst : tc1.state = tc2.state) :
    (heatingCase lim inp tc1).state = (heatingCase lim inp tc2).state := by
  unfold heatingCase
  simp only [updateEstimatedPeak, hcc, hcs, hst]
  split_ifs <;> simp [hst]

theorem doorOpenCase_state_congr (inp : Inputs) (tc1 tc2 : TempControl)
    (hst : tc1.state = tc2.state) :
    (doorOpenCase inp tc1).state = (doorOpenCase inp tc2).state := by
  unfold doorOpenCase
  split_ifs <;> simp [hst]

/-- The state after a tick that takes an early return depends only on the inputs and
the settings. -/
theorem updateState_state_early (lim : TimeLimits) (inp : Inputs) (tc : TempControl)
    (h : ¬ ReachesSwitch inp tc) :
    (updateState lim inp tc).state =
      if inp.doorOpen = true then State.DOOR_OPEN
      else if tc.cs.mode = Mode.MODE_OFF then State.STATE_OFF
      else State.IDLE := by
  by_cases hd : inp.doorOpen = true
  · unfold updateState
    simp [hd]
  · by_cases hm : tc.cs.mode = Mode.MODE_OFF
    · unfold updateState
      simp [hd, hm]
    · by_cases hf : tc.cs.fridgeSetting = INT_MIN
      · unfold updateState
        simp [hd, hm, hf]
      · have hc : (!inp.fridgeConnected ||
            (!inp.beerConnected &&
              (decide (tc.cs.mode = Mode.MODE_BEER_CONSTANT) ||
                decide (tc.cs.mode = Mode.MODE_BEER_PROFILE)))) = true := by
          by_contra hcon
          apply h
          simp only [Bool.not_eq_true, Bool.or_eq_false_iff, Bool.and_eq_false_imp,
            Bool.not_eq_eq_eq_not, Bool.not_true, Bool.not_false, decide_eq_false_iff_not]
            at hcon
          refine ⟨by simpa using hd, hm, hf, hcon.1, ?_⟩
          by_cases hb : inp.beerConnected = true
          · exact Or.inl hb
          · exact Or.inr (hcon.2 (by simpa using hb))
        unfold updateState
        rw [if_neg hd, if_neg hm, if_neg hf, if_pos hc, if_neg hd, if_neg hm]

/-- The state after a tick depends only on the inputs, the constants, the settings,
the state before and, when that is `STARTUP`, `IDLE` or `STATE_OFF`, the flags. -/
theorem updateState_state_congr (lim : TimeLimits) (inp : Inputs) (tc1 tc2 : TempControl)
    (hcc : tc1.cc = tc2.cc) (hcs : tc1.cs = tc2.cs) (hst : tc1.state = tc2.state)
    (hfl : tc1.state ≠ State.COOLING → tc1.state ≠ State.HEATING →
      tc1.state ≠ State.DOOR_OPEN →
      tc1.doPosPeakDetect = tc2.doPosPeakDetect ∧
        tc1.doNegPeakDetect = tc2.doNegPeakDetect) :
    (updateState lim inp tc1).state = (updateState lim inp tc2).state := by
  by_cases hsw : ReachesSwitch inp tc1
  · have hsw2 : ReachesSwitch inp tc2 := (reachesSwitch_congr inp tc1 tc2 hcs).1 hsw
    rw [updateState_of_reachesSwitch lim inp tc1 hsw,
      updateState_of_reachesSwitch lim inp tc2 hsw2, ← hst]
    cases hs : tc1.state <;> simp only []
    · obtain ⟨hp, hn⟩ := hfl (by simp [hs]) (by simp [hs]) (by simp [hs])
      exact idleCase_state_congr lim inp tc1 tc2 hcc hcs hst hp hn
    · obtain ⟨hp, hn⟩ := hfl (by simp [hs]) (by simp [hs]) (by simp [hs])
      exact idleCase_state_congr lim inp tc1 tc2 hcc hcs hst hp hn
    · obtain ⟨hp, hn⟩ := hfl (by simp [hs]) (by simp [hs]) (by simp [hs])
      exact idleCase_state_congr lim inp tc1 tc2 hcc hcs hst hp hn
    · exact coolingCase_state_congr lim inp tc1 tc2 hcc hcs hst
    · exact heatingCase_state_congr lim inp tc1 tc2 hcc hcs hst
    · exact doorOpenCase_state_congr inp tc1 tc2 hst
  · have hsw2 : ¬ ReachesSwitch inp tc2 := fun h =>
      hsw ((reachesSwitch_congr inp tc1 tc2 hcs).2 h)
    rw [updateState_state_early lim inp tc1 hsw, updateState_state_early lim inp tc2 hsw2,
      hcs]


/-! ## Machine arithmetic of the setters -/

/-- The 16-bit test `abs(d) > 128` on a 16-bit difference agrees with the test
`|d| > 128` over the integers, except where the 16-bit arithmetic overflows:
`|d| = 32768` (the negation overflows) and `|d| ≥ 65408` (the difference wraps to
within 128 of zero). -/
theorem abs16_wrap_gt_iff {d : Int} (h1 : |d| ≠ 32768) (h2 : |d| < 65408) :
    abs16 (wrapInt16 d) > 128 ↔ |d| > 128 := by
  unfold abs16 wrapInt16
  rcases abs_cases d with ⟨h, _⟩ | ⟨h, _⟩ <;> rw [h] at h1 h2 ⊢ <;> split_ifs <;> omega

theorem updatePID_frame (pid : PidRoutine) (inp : Inputs) (tc : TempControl) :
    (updatePID pid inp tc).state = tc.state ∧ (updatePID pid inp tc).cc = tc.cc ∧
    (updatePID pid inp tc).cs.mode = tc.cs.mode ∧
    (updatePID pid inp tc).doPosPeakDetect = tc.doPosPeakDetect ∧
    (updatePID pid inp tc).doNegPeakDetect = tc.doNegPeakDetect ∧
    (updatePID pid inp tc).storedBeerSetting = tc.storedBeerSetting ∧
    (updatePID pid inp tc).settingsWrites = tc.settingsWrites ∧
    (updatePID pid inp tc).resetCalls = tc.resetCalls := by
  simp [updatePID]

/-! ## The setters -/

/-- C11. `setMode` postcondition: for every controller state and every `newMode`
different from the current mode, `setMode` sets the state to `IDLE` and the mode to
`newMode`, sets both settings to the undefined sentinel when `newMode` is
`BEER_PROFILE` or `OFF` and leaves them unchanged otherwise, and stores the settings
exactly once; when `newMode` is the current mode the controller, storage included,
is left as it was. -/
theorem setMode_postcondition (newMode : Mode) (tc : TempControl) :
    (newMode ≠ tc.cs.mode →
      (setMode newMode tc).state = State.IDLE ∧
      (setMode newMode tc).cs.mode = newMode ∧
      ((newMode = Mode.MODE_BEER_PROFILE ∨ newMode = Mode.MODE_OFF) →
        (setMode newMode tc).cs.beerSetting = INT_MIN ∧
        (setMode newMode tc).cs.fridgeSetting = INT_MIN) ∧
      (¬ (newMode = Mode.MODE_BEER_PROFILE ∨ newMode = Mode.MODE_OFF) →
        (setMode newMode tc).cs.beerSetting = tc.cs.beerSetting ∧
        (setMode newMode tc).cs.fridgeSetting = tc.cs.fridgeSetting) ∧
      (setMode newMode tc).settingsWrites = tc.settingsWrites + 1) ∧
    (newMode = tc.cs.mode → setMode newMode tc = tc) := by
  constructor
  · intro h
    unfold setMode
    rw [if_pos h]
    by_cases hm : newMode = Mode.MODE_BEER_PROFILE ∨ newMode = Mode.MODE_OFF
    · rcases hm with hm | hm <;> simp [hm, storeTempSettings, storeSettings]
    · have h1 : newMode ≠ Mode.MODE_BEER_PROFILE := fun e => hm (Or.inl e)
      have h2 : newMode ≠ Mode.MODE_OFF := fun e => hm (Or.inr e)
      simp [h1, h2, storeTempSettings, storeSettings]
  · intro h
    unfold setMode
    simp [h]

/-- Switching the sample controller from fridge-constant to beer-profile mode: the
state is `IDLE`, both settings are undefined and the settings were stored once. -/
theorem setMode_postcondition_witness :
    (setMode Mode.MODE_BEER_PROFILE coolingControl).state = State.IDLE ∧
    (setMode Mode.MODE_BEER_PROFILE coolingControl).cs.mode = Mode.MODE_BEER_PROFILE ∧
    (setMode Mode.MODE_BEER_PROFILE coolingControl).cs.beerSetting = INT_MIN ∧
    (setMode Mode.MODE_BEER_PROFILE coolingControl).cs.fridgeSetting = INT_MIN ∧
    (setMode Mode.MODE_BEER_PROFILE coolingControl).settingsWrites
      = coolingControl.settingsWrites + 1 :=
  ⟨((setMode_postcondition Mode.MODE_BEER_PROFILE coolingControl).1 (by decide)).1,
    ((setMode_postcondition Mode.MODE_BEER_PROFILE coolingControl).1 (by decide)).2.1,
    (((setMode_postcondition Mode.MODE_BEER_PROFILE coolingControl).1
      (by decide)).2.2.1 (Or.inl rfl)).1,
    (((setMode_postcondition Mode.MODE_BEER_PROFILE coolingControl).1
      (by decide)).2.2.1 (Or.inl rfl)).2,
    ((setMode_postcondition Mode.MODE_BEER_PROFILE coolingControl).1 (by decide)).2.2.2.2⟩

theorem setBeerTemp_resetCalls (pid : PidRoutine) (lim : TimeLimits) (inp : Inputs)
    (newTemp : Int) (tc : TempControl) :
    (setBeerTemp pid lim inp newTemp tc).resetCalls =
      if abs16 (wrapInt16 (tc.cs.beerSetting - newTemp)) > 128 then tc.resetCalls + 1
      else tc.resetCalls := by
  unfold setBeerTemp
  simp only []
  split_ifs <;>
    simp [storeTempSettings, storeSettings, (updateState_frame _ _ _).2.2.2.2,
      (updatePID_frame _ _ _).2.2.2.2.2.2.2, reset]

/-- The flags left by `setBeerTemp`: when it calls `reset()` a flag is set on return
only if the re-evaluation ran the matching block; otherwise flags are never
cleared. -/
theorem setBeerTemp_flags (pid : PidRoutine) (lim : TimeLimits) (inp : Inputs)
    (newTemp : Int) (tc : TempControl) :
    if abs16 (wrapInt16 (tc.cs.beerSetting - newTemp)) > 128 then
      ((setBeerTemp pid lim inp newTemp tc).doNegPeakDetect = true →
        tc.state = State.COOLING) ∧
      ((setBeerTemp pid lim inp newTemp tc).doPosPeakDetect = true →
        tc.state = State.HEATING)
    else
      (tc.doNegPeakDetect = true →
        (setBeerTemp pid lim inp newTemp tc).doNegPeakDetect = true) ∧
      (tc.doPosPeakDetect = true →
        (setBeerTemp pid lim inp newTemp tc).doPosPeakDetect = true) := by
  have key :
      (setBeerTemp pid lim inp newTemp tc).doNegPeakDetect =
        (updateState lim inp
          (updatePID pid inp
            (if abs16 (wrapInt16 (tc.cs.beerSetting - newTemp)) > 128 then
              reset { tc with cs := { tc.cs with beerSetting := newTemp } }
             else { tc with cs := { tc.cs with beerSetting := newTemp } }))).doNegPeakDetect ∧
      (setBeerTemp pid lim inp newTemp tc).doPosPeakDetect =
        (updateState lim inp
          (updatePID pid inp
            (if abs16 (wrapInt16 (tc.cs.beerSetting - newTemp)) > 128 then
              reset { tc with cs := { tc.cs with beerSetting := newTemp } }
             else { tc with cs := { tc.cs with beerSetting := newTemp } }))).doPosPeakDetect := by
    unfold setBeerTemp
    simp only []
    split_ifs <;> simp [storeTempSettings, storeSettings]
  obtain ⟨kn, kp⟩ := key
  split_ifs with hc
  · rw [kn, kp, if_pos hc]
    have hf := updateState_flags lim inp
      (updatePID pid inp (reset { tc with cs := { tc.cs with beerSetting := newTemp } }))
    constructor
    · intro h
      rcases hf.1.1 h with h1 | ⟨_, h1⟩
      · simp [updatePID, reset] at h1
      · simpa [updatePID, reset] using h1
    · intro h
      rcases hf.2.1 h with h1 | ⟨_, h1⟩
      · simp [updatePID, reset] at h1
      · simpa [updatePID, reset] using h1
  · rw [kn, kp, if_neg hc]
    have hf := updateState_flags lim inp
      (updatePID pid inp { tc with cs := { tc.cs with beerSetting := newTemp } })
    constructor
    · intro h
      exact hf.1.2 (Or.inl (by simpa [updatePID] using h))
    · intro h
      exact hf.2.2 (Or.inl (by simpa [updatePID] using h))

/-- C12, as stated, fails: with the previous beer setting undefined (`INT_MIN`) and
the 16-bit `newTemp = 32767` the difference over the integers is `-65535`, of
absolute value `65535 > 128`, but the 16-bit difference is `1` and `setBeerTemp`
does not call `reset()`; with `newTemp = 0` the difference is `-32768`, whose 16-bit
`abs` is `-32768`, and again `reset()` is not called. -/
theorem setBeerTemp_no_reset_on_overflow :
    ({ sampleControl with cs := { sampleControl.cs with beerSetting := INT_MIN }
      } : TempControl).cs.beerSetting = INT_MIN ∧
    IsInt16 32767 ∧ |INT_MIN - 32767| = 65535 ∧
    abs16 (wrapInt16 (INT_MIN - 32767)) = 1 ∧
    (setBeerTemp keepSettings sampleLimits sampleInputs 32767
      { sampleControl with cs := { sampleControl.cs with beerSetting := INT_MIN }
      }).resetCalls = 0 ∧
    IsInt16 0 ∧ |INT_MIN - 0| = 32768 ∧
    abs16 (wrapInt16 (INT_MIN - 0)) = -32768 ∧
    (setBeerTemp keepSettings sampleLimits sampleInputs 0
      { sampleControl with cs := { sampleControl.cs with beerSetting := INT_MIN }
      }).resetCalls = 0 := by
  decide

/-- C12, amended. Significant-change reset of `setBeerTemp`: for every previous beer
setting `old` and every `newTemp` whose difference does not overflow the 16-bit
arithmetic (`|old - newTemp|` is not 32768 and is below 65408; this includes an
undefined `old` with any `newTemp` from 1 to 32639), `setBeerTemp(newTemp)` calls
`reset()`, once, if and only if `|old - newTemp| > 128` over the integers.  The
flags are cleared before the state is re-evaluated: after such a call
`doNegPeakDetect` is set only if the controller was cooling and `doPosPeakDetect`
only if it was heating.  In general the call is made exactly when the 16-bit value
`abs(old - newTemp)` exceeds 128. -/
theorem setBeerTemp_reset_iff (pid : PidRoutine) (lim : TimeLimits) (inp : Inputs)
    (newTemp : Int) (tc : TempControl) :
    (|tc.cs.beerSetting - newTemp| ≠ 32768 → |tc.cs.beerSetting - newTemp| < 65408 →
      ((setBeerTemp pid lim inp newTemp tc).resetCalls = tc.resetCalls + 1 ↔
        |tc.cs.beerSetting - newTemp| > 128) ∧
      (¬ |tc.cs.beerSetting - newTemp| > 128 →
        (setBeerTemp pid lim inp newTemp tc).resetCalls = tc.resetCalls)) ∧
    ((setBeerTemp pid lim inp newTemp tc).resetCalls = tc.resetCalls + 1 →
      ((setBeerTemp pid lim inp newTemp tc).doNegPeakDetect = true →
        tc.state = State.COOLING) ∧
      ((setBeerTemp pid lim inp newTemp tc).doPosPeakDetect = true →
        tc.state = State.HEATING)) ∧
    ((setBeerTemp pid lim inp newTemp tc).resetCalls = tc.resetCalls + 1 ↔
      abs16 (wrapInt16 (tc.cs.beerSetting - newTemp)) > 128) ∧
    (¬ abs16 (wrapInt16 (tc.cs.beerSetting - newTemp)) > 128 →
      (setBeerTemp pid lim inp newTemp tc).resetCalls = tc.resetCalls) := by
  have h := setBeerTemp_resetCalls pid lim inp newTemp tc
  have hiff : (setBeerTemp pid lim inp newTemp tc).resetCalls = tc.resetCalls + 1 ↔
      abs16 (wrapInt16 (tc.cs.beerSetting - newTemp)) > 128 := by
    rw [h]
    split_ifs with hc
    · simp [hc]
    · simp [hc]
  have hno : ¬ abs16 (wrapInt16 (tc.cs.beerSetting - newTemp)) > 128 →
      (setBeerTemp pid lim inp newTemp tc).resetCalls = tc.resetCalls := by
    intro hc
    rw [h, if_neg hc]
  refine ⟨?_, ?_, hiff, hno⟩
  · intro h1 h2
    have hab := abs16_wrap_gt_iff h1 h2
    exact ⟨hiff.trans hab, fun hc => hno (fun hcon => hc (hab.1 hcon))⟩
  · intro hr
    have hc := hiff.1 hr
    have hf := setBeerTemp_flags pid lim inp newTemp tc
    rw [if_pos hc] at hf
    exact hf

/-- Raising the beer setting of the sample controller from 20 °C to 21 °C (a change
of 512) calls `reset()` once; raising it by 0.125 °C (64) does not; and the first
setting of 20 °C after an undefined one calls it once. -/
theorem setBeerTemp_reset_iff_witness :
    (setBeerTemp keepSettings sampleLimits sampleInputs 10752 sampleControl).resetCalls
      = sampleControl.resetCalls + 1 ∧
    (setBeerTemp keepSettings sampleLimits sampleInputs 10304 sampleControl).resetCalls
      = sampleControl.resetCalls ∧
    (setBeerTemp keepSettings sampleLimits sampleInputs 10240
      { sampleControl with cs := { sampleControl.cs with beerSetting := INT_MIN }
      }).resetCalls = 1 :=
  ⟨((setBeerTemp_reset_iff keepSettings sampleLimits sampleInputs 10752
      sampleControl).1 (by decide) (by decide)).1.2 (by decide),
    ((setBeerTemp_reset_iff keepSettings sampleLimits sampleInputs 10304
      sampleControl).1 (by decide) (by decide)).2 (by decide),
    ((setBeerTemp_reset_iff keepSettings sampleLimits sampleInputs 10240
      { sampleControl with cs := { sampleControl.cs with beerSetting := INT_MIN } }).1
      (by decide) (by decide)).1.2 (by decide)⟩


theorem setFridgeTemp_flags (pid : PidRoutine) (lim : TimeLimits) (inp : Inputs)
    (newTemp : Int) (tc : TempControl) :
    ((setFridgeTemp pid lim inp newTemp tc).doNegPeakDetect = true ↔
      (ReachesSwitch inp (updatePID pid inp
          (reset { tc with cs := { tc.cs with fridgeSetting := newTemp } })) ∧
        tc.state = State.COOLING)) ∧
    ((setFridgeTemp pid lim inp newTemp tc).doPosPeakDetect = true ↔
      (ReachesSwitch inp (updatePID pid inp
          (reset { tc with cs := { tc.cs with fridgeSetting := newTemp } })) ∧
        tc.state = State.HEATING)) := by
  have hf := updateState_flags lim inp
    (updatePID pid inp (reset { tc with cs := { tc.cs with fridgeSetting := newTemp } }))
  unfold setFridgeTemp
  simp only []
  constructor
  · rw [hf.1]
    simp [updatePID, reset]
  · rw [hf.2]
    simp [updatePID, reset]

/-- C13, as stated, fails: `setFridgeTemp(5120)` on a controller that is cooling in
fridge-constant mode, with both flags clear, the door closed and the fridge sensor
connected, returns with `doNegPeakDetect` set, still in `COOLING`: `reset()` clears
the flag and the re-evaluation runs `case COOLING`, which sets it again.  This is so
for every PID routine that leaves the fridge setting defined.  With coefficient 0
and `setFridgeTemp(6144)` the controller returns in `IDLE`, again with the flag
set. -/
theorem setFridgeTemp_leaves_flag_set_when_cooling :
    coolingControl.state = State.COOLING ∧ coolingControl.doNegPeakDetect = false ∧
    coolingControl.doPosPeakDetect = false ∧
    (setFridgeTemp keepSettings sampleLimits sampleInputs 5120 coolingControl).resetCalls
      = 1 ∧
    (setFridgeTemp keepSettings sampleLimits sampleInputs 5120 coolingControl).state
      = State.COOLING ∧
    (setFridgeTemp keepSettings sampleLimits sampleInputs 5120
      coolingControl).doNegPeakDetect = true ∧
    (∀ pid : PidRoutine,
      (fridgeTempPrepared pid sampleInputs 5120 coolingControl).cs.fridgeSetting ≠ INT_MIN →
      (setFridgeTemp pid sampleLimits sampleInputs 5120 coolingControl).doNegPeakDetect
        = true) ∧
    (setFridgeTemp keepSettings sampleLimits sampleInputs 6144
      { coolingControl with cs := { coolingControl.cs with coolEstimator := 0 } }).state
      = State.IDLE ∧
    (setFridgeTemp keepSettings sampleLimits sampleInputs 6144
      { coolingControl with cs := { coolingControl.cs with coolEstimator := 0 }
      }).doNegPeakDetect = true := by
  refine ⟨by decide, by decide, by decide, by decide, by decide, by decide, ?_,
    by decide, by decide⟩
  intro pid hdef
  refine (setFridgeTemp_flags pid sampleLimits sampleInputs 5120 coolingControl).1.2
    ⟨⟨rfl, ?_, hdef, rfl, Or.inl rfl⟩, rfl⟩
  simp [updatePID, reset, coolingControl, sampleControl]

/-- C13, amended. `setFridgeTemp` resets the peak-detect flags before re-evaluating
the state: for every controller, PID routine, input snapshot and `newTemp`,
`reset()` is called once and the controller handed to `updateState()` has both flags
clear and the control state of the call; when `setFridgeTemp(newTemp)` returns,
`doNegPeakDetect` is set if and only if the control state at the call was `COOLING`
and the re-evaluation reached the state logic (door closed, mode not off, fridge
setting defined after the PID recomputation, required sensors connected), and
`doPosPeakDetect` is set if and only if the control state at the call was `HEATING`
and the re-evaluation reached the state logic; so both flags are clear on return
whenever the control state at the call was neither `COOLING` nor `HEATING`,
whatever the flags were before. -/
theorem setFridgeTemp_resets_flags (pid : PidRoutine) (lim : TimeLimits) (inp : Inputs)
    (newTemp : Int) (tc : TempControl) :
    (setFridgeTemp pid lim inp newTemp tc).resetCalls = tc.resetCalls + 1 ∧
    setFridgeTemp pid lim inp newTemp tc
      = updateState lim inp (fridgeTempPrepared pid inp newTemp tc) ∧
    (fridgeTempPrepared pid inp newTemp tc).doPosPeakDetect = false ∧
    (fridgeTempPrepared pid inp newTemp tc).doNegPeakDetect = false ∧
    (fridgeTempPrepared pid inp newTemp tc).state = tc.state ∧
    ((setFridgeTemp pid lim inp newTemp tc).doNegPeakDetect = true ↔
      (tc.state = State.COOLING ∧
        ReachesSwitch inp (fridgeTempPrepared pid inp newTemp tc))) ∧
    ((setFridgeTemp pid lim inp newTemp tc).doPosPeakDetect = true ↔
      (tc.state = State.HEATING ∧
        ReachesSwitch inp (fridgeTempPrepared pid inp newTemp tc))) ∧
    (tc.state ≠ State.COOLING → tc.state ≠ State.HEATING →
      (setFridgeTemp pid lim inp newTemp tc).doPosPeakDetect = false ∧
      (setFridgeTemp pid lim inp newTemp tc).doNegPeakDetect = false) := by
  have hf := setFridgeTemp_flags pid lim inp newTemp tc
  have hn : tc.state ≠ State.COOLING →
      (setFridgeTemp pid lim inp newTemp tc).doNegPeakDetect = false := by
    intro hc
    by_contra hcon
    exact hc (hf.1.1 (by simpa using hcon)).2
  have hp : tc.state ≠ State.HEATING →
      (setFridgeTemp pid lim inp newTemp tc).doPosPeakDetect = false := by
    intro hc
    by_contra hcon
    exact hc (hf.2.1 (by simpa using hcon)).2
  refine ⟨?_, rfl, ?_, ?_, ?_, ?_, ?_, fun h1 h2 => ⟨hp h2, hn h1⟩⟩
  · unfold setFridgeTemp
    simp only []
    rw [(updateState_frame _ _ _).2.2.2.2, (updatePID_frame _ _ _).2.2.2.2.2.2.2]
    simp [reset]
  · simp [fridgeTempPrepared, updatePID, reset]
  · simp [fridgeTempPrepared, updatePID, reset]
  · simp [fridgeTempPrepared, updatePID, reset]
  · rw [hf.1]
    exact and_comm
  · rw [hf.2]
    exact and_comm

/-- An idle controller with both flags pending: after `setFridgeTemp(5632)` both
flags are clear; a controller that is cooling returns with `doNegPeakDetect` set. -/
theorem setFridgeTemp_resets_flags_witness :
    ((setFridgeTemp keepSettings sampleLimits sampleInputs 5632
        { sampleControl with doPosPeakDetect := true, doNegPeakDetect := true
        }).doPosPeakDetect = false ∧
      (setFridgeTemp keepSettings sampleLimits sampleInputs 5632
        { sampleControl with doPosPeakDetect := true, doNegPeakDetect := true
        }).doNegPeakDetect = false) ∧
    (setFridgeTemp keepSettings sampleLimits sampleInputs 5632
      coolingControl).doNegPeakDetect = true :=
  ⟨(setFridgeTemp_resets_flags keepSettings sampleLimits sampleInputs 5632
      { sampleControl with doPosPeakDetect := true, doNegPeakDetect := true }).2.2.2.2.2.2.2
      (by decide) (by decide),
    ((setFridgeTemp_resets_flags keepSettings sampleLimits sampleInputs 5632
      coolingControl).2.2.2.2.2.1).2 ⟨rfl, by decide⟩⟩

theorem setBeerTemp_stored (pid : PidRoutine) (lim : TimeLimits) (inp : Inputs)
    (newTemp : Int) (tc : TempControl) :
    (setBeerTemp pid lim inp newTemp tc).settingsWrites =
      (if abs16 (wrapInt16 (tc.storedBeerSetting - newTemp)) > 128
        then tc.settingsWrites + 1 else tc.settingsWrites) ∧
    (¬ abs16 (wrapInt16 (tc.storedBeerSetting - newTemp)) > 128 →
      (setBeerTemp pid lim inp newTemp tc).storedBeerSetting = tc.storedBeerSetting) := by
  have e : ∀ t : TempControl, t.storedBeerSetting = tc.storedBeerSetting →
      t.settingsWrites = tc.settingsWrites →
      ((if abs16 (wrapInt16 ((updateState lim inp (updatePID pid inp t)).storedBeerSetting
            - newTemp)) > 128
          then storeTempSettings (updateState lim inp (updatePID pid inp t))
          else updateState lim inp (updatePID pid inp t)).settingsWrites =
        (if abs16 (wrapInt16 (tc.storedBeerSetting - newTemp)) > 128
          then tc.settingsWrites + 1 else tc.settingsWrites)) ∧
      (¬ abs16 (wrapInt16 (tc.storedBeerSetting - newTemp)) > 128 →
        (if abs16 (wrapInt16 ((updateState lim inp (updatePID pid inp t)).storedBeerSetting
            - newTemp)) > 128
          then storeTempSettings (updateState lim inp (updatePID pid inp t))
          else updateState lim inp (updatePID pid inp t)).storedBeerSetting
          = tc.storedBeerSetting) := by
    intro t h1 h2
    have f1 : (updateState lim inp (updatePID pid inp t)).storedBeerSetting
        = tc.storedBeerSetting := by
      rw [(updateState_frame _ _ _).2.2.1, (updatePID_frame _ _ _).2.2.2.2.2.1, h1]
    have f2 : (updateState lim inp (updatePID pid inp t)).settingsWrites
        = tc.settingsWrites := by
      rw [(updateState_frame _ _ _).2.2.2.1, (updatePID_frame _ _ _).2.2.2.2.2.2.1, h2]
    rw [f1]
    split_ifs with hc
    · simp [storeTempSettings, storeSettings, f2, hc]
    · simp [f1, f2, hc]
  unfold setBeerTemp
  exact e
    (if abs16 (wrapInt16 (tc.cs.beerSetting - newTemp)) > 128 then
      reset { tc with cs := { tc.cs with beerSetting := newTemp } }
     else { tc with cs := { tc.cs with beerSetting := newTemp } })
    (by split_ifs <;> simp [reset]) (by split_ifs <;> simp [reset])

theorem setBeerTemps_no_write (pid : PidRoutine) (lim : TimeLimits)
    (calls : List (Inputs × Int)) :
    ∀ tc : TempControl, (∀ c ∈ calls, |tc.storedBeerSetting - c.2| ≤ 128) →
      (setBeerTemps pid lim calls tc).settingsWrites = tc.settingsWrites ∧
      (setBeerTemps pid lim calls tc).storedBeerSetting = tc.storedBeerSetting := by
  induction calls with
  | nil =>
    intro tc _
    exact ⟨rfl, rfl⟩
  | cons c rest ih =>
    intro tc h
    have hc : |tc.storedBeerSetting - c.2| ≤ 128 := h c (List.mem_cons_self _ _)
    have hno : ¬ abs16 (wrapInt16 (tc.storedBeerSetting - c.2)) > 128 := by
      rw [abs16_wrap_gt_iff (by omega) (by omega)]
      omega
    obtain ⟨h1, h2⟩ := setBeerTemp_stored pid lim c.1 c.2 tc
    rw [if_neg hno] at h1
    have h3 := h2 hno
    have hrest : ∀ d ∈ rest,
        |(setBeerTemp pid lim c.1 c.2 tc).storedBeerSetting - d.2| ≤ 128 := by
      intro d hd
      rw [h3]
      exact h d (List.mem_cons_of_mem _ hd)
    obtain ⟨i1, i2⟩ := ih (setBeerTemp pid lim c.1 c.2 tc) hrest
    simp only [setBeerTemps]
    exact ⟨i1.trans h1, i2.trans h3⟩


/-- C14, as stated, fails: after `setMode(BEER_PROFILE)` the last persisted beer
setting is the undefined sentinel `INT_MIN`; a following `setBeerTemp(32767)`
differs from it by `65535 > 128`, and a following `setBeerTemp(0)` by
`32768 > 128`, yet neither stores the settings: the 16-bit values of
`abs(storedBeerSetting - newTemp)` are `1` and `-32768`. -/
theorem setBeerTemp_no_store_on_overflow :
    (setMode Mode.MODE_BEER_PROFILE sampleControl).storedBeerSetting = INT_MIN ∧
    (setMode Mode.MODE_BEER_PROFILE sampleControl).settingsWrites = 1 ∧
    |INT_MIN - 32767| > 128 ∧
    (setBeerTemp keepSettings sampleLimits sampleInputs 32767
      (setMode Mode.MODE_BEER_PROFILE sampleControl)).settingsWrites = 1 ∧
    |INT_MIN - 0| > 128 ∧
    (setBeerTemp keepSettings sampleLimits sampleInputs 0
      (setMode Mode.MODE_BEER_PROFILE sampleControl)).settingsWrites = 1 := by
  decide

/-- C14, amended. Write-avoidance: for every last persisted beer setting
`storedBeerSetting` and every `newTemp` whose difference does not overflow the
16-bit arithmetic (`|storedBeerSetting - newTemp|` is not 32768 and is below 65408),
`setBeerTemp(newTemp)` stores the settings, once, if and only if
`|storedBeerSetting - newTemp| > 128`; hence any sequence of `setBeerTemp` calls
whose values all stay within 128 units of the last persisted value performs no
storage write and leaves that value as it is, and a single call whose value differs
from it by more than 128 (without overflow) performs one.  In general the settings
are stored exactly when the 16-bit value `abs(storedBeerSetting - newTemp)` exceeds
128. -/
theorem setBeerTemp_write_avoidance (pid : PidRoutine) (lim : TimeLimits) (inp : Inputs)
    (newTemp : Int) (tc : TempControl) :
    (|tc.storedBeerSetting - newTemp| ≠ 32768 → |tc.storedBeerSetting - newTemp| < 65408 →
      ((setBeerTemp pid lim inp newTemp tc).settingsWrites = tc.settingsWrites + 1 ↔
        |tc.storedBeerSetting - newTemp| > 128) ∧
      (¬ |tc.storedBeerSetting - newTemp| > 128 →
        (setBeerTemp pid lim inp newTemp tc).settingsWrites = tc.settingsWrites)) ∧
    (∀ calls : List (Inputs × Int),
      (∀ c ∈ calls, |tc.storedBeerSetting - c.2| ≤ 128) →
      (setBeerTemps pid lim calls tc).settingsWrites = tc.settingsWrites ∧
      (setBeerTemps pid lim calls tc).storedBeerSetting = tc.storedBeerSetting) ∧
    ((setBeerTemp pid lim inp newTemp tc).settingsWrites = tc.settingsWrites + 1 ↔
      abs16 (wrapInt16 (tc.storedBeerSetting - newTemp)) > 128) ∧
    (¬ abs16 (wrapInt16 (tc.storedBeerSetting - newTemp)) > 128 →
      (setBeerTemp pid lim inp newTemp tc).settingsWrites = tc.settingsWrites) := by
  obtain ⟨h, _⟩ := setBeerTemp_stored pid lim inp newTemp tc
  have hiff : (setBeerTemp pid lim inp newTemp tc).settingsWrites = tc.settingsWrites + 1 ↔
      abs16 (wrapInt16 (tc.storedBeerSetting - newTemp)) > 128 := by
    rw [h]
    split_ifs with hc
    · simp [hc]
    · simp [hc]
  have hno : ¬ abs16 (wrapInt16 (tc.storedBeerSetting - newTemp)) > 128 →
      (setBeerTemp pid lim inp newTemp tc).settingsWrites = tc.settingsWrites := by
    intro hc
    rw [h, if_neg hc]
  refine ⟨?_, fun calls hc => setBeerTemps_no_write pid lim calls tc hc, hiff, hno⟩
  intro h1 h2
  have hab := abs16_wrap_gt_iff h1 h2
  exact ⟨hiff.trans hab, fun hc => hno (fun hcon => hc (hab.1 hcon))⟩

/-- With 20 °C (10240) persisted: setting 20.5 °C (10496) stores the settings once;
the calls 10300, 10200, 10368 in a row store nothing. -/
theorem setBeerTemp_write_avoidance_witness :
    (setBeerTemp keepSettings sampleLimits sampleInputs 10496 sampleControl).settingsWrites
      = sampleControl.settingsWrites + 1 ∧
    (setBeerTemps keepSettings sampleLimits
      [(sampleInputs, 10300), (sampleInputs, 10200), (sampleInputs, 10368)]
      sampleControl).settingsWrites = sampleControl.settingsWrites :=
  ⟨((setBeerTemp_write_avoidance keepSettings sampleLimits sampleInputs 10496
      sampleControl).1 (by decide) (by decide)).1.2 (by decide),
    ((setBeerTemp_write_avoidance keepSettings sampleLimits sampleInputs 10496
      sampleControl).2.1
      [(sampleInputs, 10300), (sampleInputs, 10200), (sampleInputs, 10368)]
      (by decide)).1⟩

/-! ## Invariants of the controller -/

theorem updateState_setpointInvariant (lim : TimeLimits) (inp : Inputs) (tc : TempControl)
    (h : SetpointInvariant tc) : SetpointInvariant (updateState lim inp tc) := by
  unfold SetpointInvariant at *
  rw [(updateState_frame lim inp tc).1, (updateState_frame lim inp tc).2.1]
  exact h

theorem setMode_setpointInvariant (newMode : Mode) (tc : TempControl)
    (h : SetpointInvariant tc) : SetpointInvariant (setMode newMode tc) := by
  unfold SetpointInvariant InRangeOrUndefined at *
  unfold setMode
  split_ifs with h1 h2
  · simp [storeTempSettings, storeSettings]
  · simpa [storeTempSettings, storeSettings] using h
  · exact h

/-! ## Repeated ticks -/

theorem tick_repeat_of_early (lim : TimeLimits) (inp : Inputs) (tc : TempControl)
    (hsw : ¬ ReachesSwitch inp tc) :
    (updateState lim inp (updateState lim inp tc)).state
      = (updateState lim inp tc).state := by
  have hcs := (updateState_frame lim inp tc).1
  have hsw2 : ¬ ReachesSwitch inp (updateState lim inp tc) := fun h =>
    hsw ((reachesSwitch_congr inp _ tc hcs).1 h)
  rw [updateState_state_early lim inp _ hsw2, updateState_state_early lim inp tc hsw, hcs]

theorem tick_repeat_of_unchanged (lim : TimeLimits) (inp : Inputs) (tc : TempControl)
    (hst : (updateState lim inp tc).state = tc.state) :
    (updateState lim inp (updateState lim inp tc)).state
      = (updateState lim inp tc).state := by
  have hcs := (updateState_frame lim inp tc).1
  have hcc := (updateState_frame lim inp tc).2.1
  have hfl := updateState_flags lim inp tc
  have h := updateState_state_congr lim inp (updateState lim inp tc) tc hcc hcs hst
    (by
      intro h1 h2 _
      rw [hst] at h1 h2
      constructor
      · rw [Bool.eq_iff_iff, hfl.2]
        constructor
        · rintro (h | ⟨_, h⟩)
          · exact h
          · exact absurd h h2
        · exact Or.inl
      · rw [Bool.eq_iff_iff, hfl.1]
        constructor
        · rintro (h | ⟨_, h⟩)
          · exact h
          · exact absurd h h1
        · exact Or.inl)
  rw [h]

theorem coolingCase_state_eq (lim : TimeLimits) (inp : Inputs) (tc : TempControl) :
    (CoolingExitDue lim inp tc → (coolingCase lim inp tc).state = State.IDLE) ∧
    (¬ CoolingExitDue lim inp tc → (coolingCase lim inp tc).state = tc.state) := by
  unfold coolingCase CoolingExitDue
  simp only [updateEstimatedPeak]
  generalize wrapInt16 (inp.fridgeFast + _) = p
  by_cases h1 : p ≤ tc.cs.fridgeSetting
  · by_cases h2 : inp.sinceIdle > lim.MIN_COOL_ON_TIME
    · simp [h1, h2]
    · simp [h1, h2]
  · simp [h1]

theorem heatingCase_state_eq (lim : TimeLimits) (inp : Inputs) (tc : TempControl) :
    (HeatingExitDue lim inp tc → (heatingCase lim inp tc).state = State.IDLE) ∧
    (¬ HeatingExitDue lim inp tc → (heatingCase lim inp tc).state = tc.state) := by
  unfold heatingCase HeatingExitDue
  simp only [updateEstimatedPeak]
  generalize wrapInt16 (inp.fridgeFast + _) = p
  by_cases h1 : p ≥ tc.cs.fridgeSetting
  · by_cases h2 : inp.sinceIdle > lim.MIN_HEAT_ON_TIME
    · simp [h1, h2]
    · simp [h1, h2]
  · simp [h1]

theorem coolingExitDue_congr (lim : TimeLimits) (inp : Inputs) (tc1 tc2 : TempControl)
    (hcc : tc1.cc = tc2.cc) (hcs : tc1.cs = tc2.cs) :
    CoolingExitDue lim inp tc1 ↔ CoolingExitDue lim inp tc2 := by
  unfold CoolingExitDue
  simp only [updateEstimatedPeak, hcc, hcs]

theorem heatingExitDue_congr (lim : TimeLimits) (inp : Inputs) (tc1 tc2 : TempControl)
    (hcc : tc1.cc = tc2.cc) (hcs : tc1.cs = tc2.cs) :
    HeatingExitDue lim inp tc1 ↔ HeatingExitDue lim inp tc2 := by
  unfold HeatingExitDue
  simp only [updateEstimatedPeak, hcc, hcs]

/-- With a peak-detect flag set the idle block leaves the state as it is. -/
theorem idleCase_state_of_flag (lim : TimeLimits) (inp : Inputs) (tc : TempControl)
    (h : tc.doPosPeakDetect = true ∨ tc.doNegPeakDetect = true) :
    (idleCase lim inp tc).state = tc.state := by
  rcases idleCase_state lim inp tc with h1 | ⟨_, hn, hp, _⟩ | ⟨_, hn, hp, _⟩
  · exact h1
  · rcases h with h | h
    · rw [hp] at h
      cases h
    · rw [hn] at h
      cases h
  · rcases h with h | h
    · rw [hp] at h
      cases h
    · rw [hn] at h
      cases h

/-- A tick that starts in `COOLING` or `HEATING` is repeated without change of state:
if it left the cycle, the flag it set keeps the controller `IDLE`. -/
theorem tick_repeat_of_active (lim : TimeLimits) (inp : Inputs) (tc : TempControl)
    (h : tc.state = State.COOLING ∨ tc.state = State.HEATING) :
    (updateState lim inp (updateState lim inp tc)).state
      = (updateState lim inp tc).state := by
  by_cases hsw : ReachesSwitch inp tc
  · by_cases hun : (updateState lim inp tc).state = tc.state
    · exact tick_repeat_of_unchanged lim inp tc hun
    · have hcs := (updateState_frame lim inp tc).1
      have hsw2 : ReachesSwitch inp (updateState lim inp tc) :=
        (reachesSwitch_congr inp _ tc hcs).2 hsw
      have hfl := updateState_flags lim inp tc
      have hidle : (updateState lim inp tc).state = State.IDLE := by
        rw [updateState_of_reachesSwitch lim inp tc hsw] at hun ⊢
        rcases h with h | h
        · rw [h] at hun ⊢
          simp only [] at hun ⊢
          rcases coolingCase_state lim inp tc with h1 | h1
          · exact absurd (h1.trans h) hun
          · exact h1
        · rw [h] at hun ⊢
          simp only [] at hun ⊢
          rcases heatingCase_state lim inp tc with h1 | h1
          · exact absurd (h1.trans h) hun
          · exact h1
      have hflag : (updateState lim inp tc).doPosPeakDetect = true ∨
          (updateState lim inp tc).doNegPeakDetect = true := by
        rcases h with h | h
        · exact Or.inr (hfl.1.2 (Or.inr ⟨hsw, h⟩))
        · exact Or.inl (hfl.2.2 (Or.inr ⟨hsw, h⟩))
      rw [updateState_of_reachesSwitch lim inp _ hsw2, hidle]
      simp only []
      rw [idleCase_state_of_flag lim inp _ hflag, hidle]
  · exact tick_repeat_of_early lim inp tc hsw

/-- C17, as stated, fails: a tick that starts in `DOOR_OPEN` with the door closed
and the mode off ends in `STATE_OFF`, not `IDLE`, and sends no annotation. -/
theorem door_closed_in_mode_off_gives_state_off :
    ({ doorOpenControl with cs := { doorOpenControl.cs with mode := Mode.MODE_OFF }
      } : TempControl).state = State.DOOR_OPEN ∧
    sampleInputs.doorOpen = false ∧
    (updateState sampleLimits sampleInputs
      { doorOpenControl with cs := { doorOpenControl.cs with mode := Mode.MODE_OFF }
      }).state = State.STATE_OFF ∧
    (updateState sampleLimits sampleInputs
      { doorOpenControl with cs := { doorOpenControl.cs with mode := Mode.MODE_OFF }
      }).annotations = [] := by
  decide

/-- C17, amended. Return from `DOOR_OPEN`: for every tick that starts in `DOOR_OPEN`
with the door sensor reporting closed, the resulting state is `IDLE` in every mode
other than off, whatever the setpoints and the sensor connectivity, and `STATE_OFF`
when the mode is off; and when the tick reaches the state logic (mode not off,
fridge setting defined, required sensors connected) `updateState` sends the
"Fridge door closed" annotation. -/
theorem return_from_door_open (lim : TimeLimits) (inp : Inputs) (tc : TempControl)
    (hs : tc.state = State.DOOR_OPEN) (hd : inp.doorOpen = false) :
    (tc.cs.mode ≠ Mode.MODE_OFF → (updateState lim inp tc).state = State.IDLE) ∧
    (tc.cs.mode = Mode.MODE_OFF → (updateState lim inp tc).state = State.STATE_OFF) ∧
    (ReachesSwitch inp tc →
      (updateState lim inp tc).annotations = tc.annotations ++ ["Fridge door closed"]) := by
  have hreach : ReachesSwitch inp tc → updateState lim inp tc =
      { tc with annotations := tc.annotations ++ ["Fridge door closed"],
                state := State.IDLE } := by
    intro hsw
    rw [updateState_of_reachesSwitch lim inp tc hsw, hs]
    simp only []
    unfold doorOpenCase
    simp [hd]
  refine ⟨?_, ?_, ?_⟩
  · intro hm
    by_cases hsw : ReachesSwitch inp tc
    · rw [hreach hsw]
    · rw [updateState_state_early lim inp tc hsw]
      simp [hd, hm]
  · intro hm
    have hsw : ¬ ReachesSwitch inp tc := fun h => h.2.1 hm
    rw [updateState_state_early lim inp tc hsw]
    simp [hd, hm]
  · intro hsw
    rw [hreach hsw]

/-- The door of the sample controller closes: the state is `IDLE` and the
annotation is sent. -/
theorem return_from_door_open_witness :
    (updateState sampleLimits sampleInputs doorOpenControl).state = State.IDLE ∧
    (updateState sampleLimits sampleInputs doorOpenControl).annotations
      = ["Fridge door closed"] :=
  ⟨(return_from_door_open sampleLimits sampleInputs doorOpenControl rfl rfl).1 (by decide),
    (return_from_door_open sampleLimits sampleInputs doorOpenControl rfl rfl).2.2
      (by decide)⟩

/-- C18. `DOOR_OPEN` never leads directly to actuation: for every tick that starts
in `DOOR_OPEN` and every input snapshot, the state after `updateState` is neither
`HEATING` nor `COOLING`. -/
theorem door_open_never_actuates (lim : TimeLimits) (inp : Inputs) (tc : TempControl)
    (hs : tc.state = State.DOOR_OPEN) :
    (updateState lim inp tc).state ≠ State.HEATING ∧
    (updateState lim inp tc).state ≠ State.COOLING := by
  by_cases hsw : ReachesSwitch inp tc
  · rw [updateState_of_reachesSwitch lim inp tc hsw, hs]
    simp only []
    rcases doorOpenCase_state inp tc with h | h
    · rw [h, hs]
      simp
    · rw [h]
      simp
  · rcases updateState_state_of_not_reachesSwitch lim inp tc hsw with h | h | h <;>
      (rw [h]; simp)

/-- The door closes on a warm fridge with every timer elapsed: the controller goes to
`IDLE`, not to `COOLING`. -/
theorem door_open_never_actuates_witness :
    doorOpenControl.state = State.DOOR_OPEN ∧
    (updateState sampleLimits sampleInputs doorOpenControl).state ≠ State.HEATING ∧
    (updateState sampleLimits sampleInputs doorOpenControl).state ≠ State.COOLING :=
  ⟨rfl, door_open_never_actuates sampleLimits sampleInputs doorOpenControl rfl⟩


/-! ## Pending peaks and the beer sensor -/

theorem updateState_lockout (lim : TimeLimits) (inp : Inputs) (tc : TempControl)
    (h : PendingPeakLockout tc) : PendingPeakLockout (updateState lim inp tc) := by
  obtain ⟨hfl, hc, hh⟩ := h
  have hf := updateState_flags lim inp tc
  refine ⟨?_, ?_⟩
  · rcases hfl with hp | hn
    · exact Or.inl (hf.2.2 (Or.inl hp))
    · exact Or.inr (hf.1.2 (Or.inl hn))
  · by_cases hsw : ReachesSwitch inp tc
    · have hidle : (idleCase lim inp tc).state = tc.state := by
        rcases idleCase_state lim inp tc with h | ⟨_, hn, hp, _⟩ | ⟨_, hn, hp, _⟩
        · exact h
        · rcases hfl with h | h
          · rw [hp] at h
            cases h
          · rw [hn] at h
            cases h
        · rcases hfl with h | h
          · rw [hp] at h
            cases h
          · rw [hn] at h
            cases h
      rw [updateState_of_reachesSwitch lim inp tc hsw]
      cases hst : tc.state <;> simp only []
      · rw [hidle, hst]
        simp
      · rw [hidle, hst]
        simp
      · rw [hidle, hst]
        simp
      · exact absurd hst hc
      · exact absurd hst hh
      · rcases doorOpenCase_state inp tc with h | h
        · rw [h, hst]
          simp
        · rw [h]
          simp
    · rcases updateState_state_of_not_reachesSwitch lim inp tc hsw with h | h | h <;>
        (rw [h]; simp)

theorem ticks_lockout (lim : TimeLimits) (inps : List Inputs) :
    ∀ tc : TempControl, PendingPeakLockout tc → PendingPeakLockout (ticks lim inps tc) := by
  induction inps with
  | nil =>
    intro tc h
    exact h
  | cons inp rest ih =>
    intro tc h
    exact ih _ (updateState_lockout lim inp tc h)

/-- C19. Pending-peak lockout is an invariant of the tick: `updateState` never
clears a peak-detect flag, and the predicate "a peak-detect flag is set and the
state is neither `COOLING` nor `HEATING`" is preserved by `updateState` for every
input snapshot; so from such a state no sequence of ticks reaches `HEATING` or
`COOLING`. -/
theorem pending_peak_lockout (lim : TimeLimits) (tc : TempControl)
    (h : PendingPeakLockout tc) :
    (∀ (inp : Inputs) (t : TempControl),
      (t.doPosPeakDetect = true → (updateState lim inp t).doPosPeakDetect = true) ∧
      (t.doNegPeakDetect = true → (updateState lim inp t).doNegPeakDetect = true)) ∧
    (∀ inp : Inputs, PendingPeakLockout (updateState lim inp tc)) ∧
    (∀ inps : List Inputs,
      PendingPeakLockout (ticks lim inps tc) ∧
      (ticks lim inps tc).state ≠ State.HEATING ∧
      (ticks lim inps tc).state ≠ State.COOLING) := by
  refine ⟨?_, fun inp => updateState_lockout lim inp tc h, ?_⟩
  · intro inp t
    have hf := updateState_flags lim inp t
    exact ⟨fun hp => hf.2.2 (Or.inl hp), fun hn => hf.1.2 (Or.inl hn)⟩
  · intro inps
    have hl := ticks_lockout lim inps tc h
    exact ⟨hl, hl.2.2, hl.2.1⟩

/-- An idle controller with a negative peak pending and a warm fridge: three ticks
with every timer elapsed leave it `IDLE`. -/
theorem pending_peak_lockout_witness :
    PendingPeakLockout { sampleControl with doNegPeakDetect := true } ∧
    (ticks sampleLimits [sampleInputs, sampleInputs, sampleInputs]
      { sampleControl with doNegPeakDetect := true }).state = State.IDLE ∧
    (ticks sampleLimits [sampleInputs, sampleInputs, sampleInputs]
      { sampleControl with doNegPeakDetect := true }).state ≠ State.COOLING :=
  ⟨by decide, by decide,
    ((pending_peak_lockout sampleLimits { sampleControl with doNegPeakDetect := true }
      (by decide)).2.2 [sampleInputs, sampleInputs, sampleInputs]).2.2⟩

/-- C20. The code at the failing input: in fridge-constant mode, from `IDLE` with the
fridge at 8 °C (below the idle band 9 °C to 11 °C) and every timer elapsed, two
runs that differ only in the beer reading end in different states, `HEATING` with
the beer at 20 °C (not above the beer setting) and `IDLE` with the beer at 21 °C;
and two runs that differ only in the beer setting differ likewise, an undefined
beer setting keeping the controller `IDLE`.  With the fridge at 11.5 °C (above the
band) the beer reading makes no difference: both runs end in `COOLING`. -/
theorem beer_reading_gates_heating_in_fridge_constant :
    sampleControl.cs.mode = Mode.MODE_FRIDGE_CONSTANT ∧ sampleControl.state = State.IDLE ∧
    (updateState sampleLimits { coldInputs with beerFast := 10240 } sampleControl).state
      = State.HEATING ∧
    (updateState sampleLimits { coldInputs with beerFast := 10752 } sampleControl).state
      = State.IDLE ∧
    (updateState sampleLimits coldInputs
      { sampleControl with cs := { sampleControl.cs with beerSetting := 10240 } }).state
      = State.HEATING ∧
    (updateState sampleLimits coldInputs
      { sampleControl with cs := { sampleControl.cs with beerSetting := INT_MIN } }).state
      = State.IDLE ∧
    (updateState sampleLimits { sampleInputs with beerFast := 10240 } sampleControl).state
      = State.COOLING ∧
    (updateState sampleLimits { sampleInputs with beerFast := 10752 } sampleControl).state
      = State.COOLING := by
  decide

end BrewPi
